import Mathlib

/-!
DiligentSamples: command-line parsing and sample glue.

A shallow embedding of the command-line handling of `SampleApp` and of the
Win32 tutorials, of the capability checks of the tessellation and compute
tutorials, of the display-mode labels and of the texture mapping of the
resource-update tutorial, together with the properties proved about them.
-/

namespace DiligentSamples

/-! ## C strings -/

/-- A C string (`const char*`): the characters stored from the pointer on.
The end of the list stands for the terminator, and so does a NUL character. -/
abbrev CStr := List Char

/-- The terminating character of a C string. -/
def NUL : Char := Char.ofNat 0

/-- Reads the character under a pointer (`*p`); the terminator past the stored text. -/
def deref : CStr → Char
  | [] => NUL
  | c :: _ => c

/-- C library `tolower` in the "C" locale. -/
def tolower (c : Char) : Char :=
  if 65 ≤ c.toNat ∧ c.toNat ≤ 90 then Char.ofNat (c.toNat + 32) else c

/-- C library `strchr`: the position of the first occurrence of `c`, the
terminator included, or `none` for a null pointer. -/
def strchr : CStr → Char → Option CStr
  | [], c => if c = NUL then some [] else none
  | a :: s, c => if a = c then some (a :: s) else if a = NUL then none else strchr s c

/-- Modelled from the spec: `StrCmpNoCase(Str1, Str2, NumChars)` of the engine's string
tools is not part of these sources; it forwards to the C library `_strnicmp` /
`strncasecmp`, which compares at most `NumChars` characters ignoring case and stops at a
terminator. -/
def StrCmpNoCase : CStr → CStr → Nat → Int
  | _, _, 0 => 0
  | Str1, Str2, n + 1 =>
    let c1 := tolower (deref Str1)
    let c2 := tolower (deref Str2)
    if c1 ≠ c2 then (c1.toNat : Int) - (c2.toNat : Int)
    else if c1 = NUL then 0
    else StrCmpNoCase Str1.tail Str2.tail n

/-- C library `_stricmp` / `strcasecmp`: case-insensitive comparison of two whole strings. -/
def stricmp (Str1 Str2 : CStr) : Int :=
  StrCmpNoCase Str1 Str2 (Str1.length + 1)

/-- C library `strstr`: the position of the first occurrence of `Key` in `s`. -/
def strstr : CStr → CStr → Option CStr
  | [], Key => if deref Key = NUL then some [] else none
  | a :: s, Key =>
    if (Key.takeWhile (· ≠ NUL)).isPrefixOf ((a :: s).takeWhile (· ≠ NUL)) then some (a :: s)
    else if a = NUL then none
    else strstr s Key

/-! ## `GetArgument` (SampleApp.cpp) -/

/-- The delimiter set `" \n\r"` of `GetArgument`. -/
def delimeters : CStr := [' ', '\n', '\r']

/-- First loop of `GetArgument`:
`while(pos[ArgNameLen] != 0 && strchr(delimeters, pos[ArgNameLen]) == nullptr) ++ArgNameLen;` -/
def scanArgNameLen : CStr → Nat
  | [] => 0
  | c :: s => if c ≠ NUL ∧ (strchr delimeters c).isNone then scanArgNameLen s + 1 else 0

/-- Second loop of `GetArgument`:
`while(*pos != 0 && strchr(delimeters, *pos) != nullptr) ++pos;` -/
def skipDelimeters : CStr → CStr
  | [] => []
  | c :: s => if c ≠ NUL ∧ (strchr delimeters c).isSome then skipDelimeters s else c :: s

/-- Third loop of `GetArgument`:
`while(*pos != 0 && strchr(delimeters, *pos) == nullptr) Arg.push_back(*(pos++));`
The result is `Arg` and the final `pos`. -/
def readArg : CStr → CStr × CStr
  | [] => ([], [])
  | c :: s =>
    if c ≠ NUL ∧ (strchr delimeters c).isNone then ((c :: (readArg s).1), (readArg s).2)
    else ([], c :: s)

/-- `std::string GetArgument(const char* &pos, const char* ArgName)`: the returned string
and the value of the reference parameter `pos` on return. -/
def GetArgument (pos ArgName : CStr) : CStr × CStr :=
  let ArgNameLen := scanArgNameLen pos
  if StrCmpNoCase pos ArgName ArgNameLen = 0 then
    readArg (skipDelimeters (pos.drop ArgNameLen))
  else
    ([], pos)

/-! ## C library number parsing -/

/-- C library `isspace` in the "C" locale. -/
def isspace (c : Char) : Bool :=
  c.toNat = 32 ∨ (9 ≤ c.toNat ∧ c.toNat ≤ 13)

/-- C library `isdigit`. -/
def isdigit (c : Char) : Bool :=
  48 ≤ c.toNat ∧ c.toNat ≤ 57

/-- Digit loop of `atoi`: accumulates decimal digits until the first other character. -/
def atoiDigits : CStr → Int → Int
  | [], acc => acc
  | c :: s, acc => if isdigit c then atoiDigits s (acc * 10 + ((c.toNat : Int) - 48)) else acc

/-- C library `atoi`: skips white space, reads an optional sign and the decimal digits
that follow. A result outside the range of `int` is undefined in C and is not modelled:
the mathematical value is returned. -/
def atoi (s : CStr) : Int :=
  match s.dropWhile isspace with
  | '-' :: r => - atoiDigits r 0
  | '+' :: r => atoiDigits r 0
  | r => atoiDigits r 0

/-! ## `SampleApp` state -/

/-- Engine enumeration `DeviceType`. -/
inductive DeviceType
  | Undefined | D3D11 | D3D12 | OpenGL | OpenGLES | Vulkan | Metal
  deriving DecidableEq, Repr

/-- Engine enumeration `EImageFileFormat`, the two formats the application selects. -/
inductive EImageFileFormat
  | jpeg | png
  deriving DecidableEq, Repr

/-- Enumeration `SampleApp::ValidationMode`. -/
inductive ValidationMode
  | Default | Enable | Disable
  deriving DecidableEq, Repr

/-- The preprocessor switches that select the backends compiled into the application. -/
structure BuildConfig where
  D3D11_SUPPORTED : Bool
  D3D12_SUPPORTED : Bool
  GL_SUPPORTED : Bool
  GLES_SUPPORTED : Bool
  VULKAN_SUPPORTED : Bool
  deriving DecidableEq, Repr

/-- The fields of `m_ScreenCaptureInfo` written by the command line. `Double` stands for
the C type `double`, whose arithmetic is not modelled. -/
structure ScreenCaptureInfo (Double : Type) where
  AllowCapture : Bool
  Directory : CStr
  FileName : CStr
  CaptureFPS : Double
  FramesToCapture : Int
  FileFormat : EImageFileFormat
  JpegQuality : Int
  KeepAlpha : Bool
  deriving DecidableEq

/-- The members of `SampleApp` read or written by `ProcessCommandLine`. `Messages` collects
what `LOG_ERROR_MESSAGE` and the debug assertion `UNEXPECTED` report. -/
structure SampleApp (Double : Type) where
  m_DeviceType : DeviceType
  m_ScreenCaptureInfo : ScreenCaptureInfo Double
  m_InitialWindowWidth : Int
  m_InitialWindowHeight : Int
  m_ValidationMode : ValidationMode
  m_AppTitle : String
  Messages : List String
  deriving DecidableEq

/-! ## `SampleApp::ProcessCommandLine` (SampleApp.cpp) -/

/-- Message of the exception thrown for a `-mode` value that names no device type; `pos`
is the rest of the command line, printed by the message. -/
def unknownDeviceTypeError (pos : CStr) : String :=
  "Unknown device type: '" ++ String.mk (pos.takeWhile (· ≠ NUL)) ++
    "'. Only the following types are supported: D3D11, D3D12, GL, VK"

/-- The `-mode` branch of `ProcessCommandLine`: `Arg` is the value read by `GetArgument`,
`pos` the position after it. `LOG_ERROR_AND_THROW` is the `error` result. -/
def ProcessCommandLine_mode {Double : Type} (cfg : BuildConfig) (Arg pos : CStr)
    (app : SampleApp Double) : Except String (SampleApp Double) :=
  if StrCmpNoCase Arg "D3D11".toList Arg.length = 0 then
    if cfg.D3D11_SUPPORTED then .ok { app with m_DeviceType := DeviceType.D3D11 }
    else .error "Direct3D11 is not supported. Please select another device type"
  else if StrCmpNoCase Arg "D3D12".toList Arg.length = 0 then
    if cfg.D3D12_SUPPORTED then .ok { app with m_DeviceType := DeviceType.D3D12 }
    else .error "Direct3D12 is not supported. Please select another device type"
  else if StrCmpNoCase Arg "GL".toList Arg.length = 0 then
    if cfg.GL_SUPPORTED || cfg.GLES_SUPPORTED then
      .ok { app with m_DeviceType := DeviceType.OpenGL }
    else .error "OpenGL is not supported. Please select another device type"
  else if StrCmpNoCase Arg "VK".toList Arg.length = 0 then
    if cfg.VULKAN_SUPPORTED then .ok { app with m_DeviceType := DeviceType.Vulkan }
    else .error "Vulkan is not supported. Please select another device type"
  else
    .error (unknownDeviceTypeError pos)

/-- The `-capture_format` branch of `ProcessCommandLine`. -/
def ProcessCommandLine_capture_format {Double : Type} (Arg : CStr) (app : SampleApp Double) :
    SampleApp Double :=
  if StrCmpNoCase Arg "jpeg".toList Arg.length = 0 ∨
      StrCmpNoCase Arg "jpg".toList Arg.length = 0 then
    { app with m_ScreenCaptureInfo :=
        { app.m_ScreenCaptureInfo with FileFormat := EImageFileFormat.jpeg } }
  else if StrCmpNoCase Arg "png".toList Arg.length = 0 then
    { app with m_ScreenCaptureInfo :=
        { app.m_ScreenCaptureInfo with FileFormat := EImageFileFormat.png } }
  else
    { app with Messages := app.Messages ++
        ["Unknown capture format. The following are allowed values: 'jpeg', 'jpg', 'png'"] }

/-- The `-validation` branch of `ProcessCommandLine`. -/
def ProcessCommandLine_validation {Double : Type} (Arg : CStr) (app : SampleApp Double) :
    SampleApp Double :=
  if StrCmpNoCase Arg "true".toList Arg.length = 0 ∨
      StrCmpNoCase Arg "1".toList Arg.length = 0 ∨
      StrCmpNoCase Arg "enable".toList Arg.length = 0 then
    { app with m_ValidationMode := ValidationMode.Enable }
  else
    { app with m_ValidationMode := ValidationMode.Disable }

/-- One pass through the body of the `while` loop of `ProcessCommandLine`, after `++pos`:
the chain of `else if ( !(Arg = GetArgument(pos, name)).empty() )` alternatives. Every
call of `GetArgument` continues from the position left by the one before it. The result
is the position and the application state at the end of the body. -/
def ProcessCommandLine_option {Double : Type} (cfg : BuildConfig) (atof : CStr → Double)
    (pos : CStr) (app : SampleApp Double) : Except String (CStr × SampleApp Double) :=
  let r1 := GetArgument pos "mode".toList
  if r1.1 ≠ [] then
    match ProcessCommandLine_mode cfg r1.1 r1.2 app with
    | .ok app1 => .ok (r1.2, app1)
    | .error e => .error e
  else
  let r2 := GetArgument r1.2 "capture_path".toList
  if r2.1 ≠ [] then
    .ok (r2.2, { app with m_ScreenCaptureInfo :=
      { app.m_ScreenCaptureInfo with Directory := r2.1, AllowCapture := true } })
  else
  let r3 := GetArgument r2.2 "capture_name".toList
  if r3.1 ≠ [] then
    .ok (r3.2, { app with m_ScreenCaptureInfo :=
      { app.m_ScreenCaptureInfo with FileName := r3.1, AllowCapture := true } })
  else
  let r4 := GetArgument r3.2 "capture_fps".toList
  if r4.1 ≠ [] then
    .ok (r4.2, { app with m_ScreenCaptureInfo :=
      { app.m_ScreenCaptureInfo with CaptureFPS := atof r4.1 } })
  else
  let r5 := GetArgument r4.2 "capture_frames".toList
  if r5.1 ≠ [] then
    .ok (r5.2, { app with m_ScreenCaptureInfo :=
      { app.m_ScreenCaptureInfo with FramesToCapture := atoi r5.1 } })
  else
  let r6 := GetArgument r5.2 "capture_format".toList
  if r6.1 ≠ [] then
    .ok (r6.2, ProcessCommandLine_capture_format r6.1 app)
  else
  let r7 := GetArgument r6.2 "capture_quality".toList
  if r7.1 ≠ [] then
    .ok (r7.2, { app with m_ScreenCaptureInfo :=
      { app.m_ScreenCaptureInfo with JpegQuality := atoi r7.1 } })
  else
  let r8 := GetArgument r7.2 "capture_alpha".toList
  if r8.1 ≠ [] then
    .ok (r8.2, { app with m_ScreenCaptureInfo :=
      { app.m_ScreenCaptureInfo with
        KeepAlpha := decide (StrCmpNoCase r8.1 "true".toList r8.1.length = 0) ||
          decide (r8.1 = "1".toList) } })
  else
  let r9 := GetArgument r8.2 "width".toList
  if r9.1 ≠ [] then
    .ok (r9.2, { app with m_InitialWindowWidth := atoi r9.1 })
  else
  let r10 := GetArgument r9.2 "height".toList
  if r10.1 ≠ [] then
    .ok (r10.2, { app with m_InitialWindowHeight := atoi r10.1 })
  else
  let r11 := GetArgument r10.2 "validation".toList
  if r11.1 ≠ [] then
    .ok (r11.2, ProcessCommandLine_validation r11.1 app)
  else
    .ok (r11.2, app)

/-- The `while(pos != nullptr)` loop of `ProcessCommandLine`. `pos` is `none` for the null
pointer. Every pass moves `pos` forward, so the loop ends; `fuel` bounds the number of
passes and `none` is returned only when it runs out. -/
def ProcessCommandLine_loop {Double : Type} (cfg : BuildConfig) (atof : CStr → Double) :
    Nat → Option CStr → SampleApp Double → Option (Except String (SampleApp Double))
  | _, none, app => some (.ok app)
  | 0, some _, _ => none
  | fuel + 1, some pos, app =>
    match ProcessCommandLine_option cfg atof pos.tail app with
    | .error e => some (.error e)
    | .ok (pos1, app1) => ProcessCommandLine_loop cfg atof fuel (strchr pos1 '-') app1

/-- The default device type of `ProcessCommandLine`: the `#if / #elif` chain that assigns
`m_DeviceType` when it is still undefined. -/
def ProcessCommandLine_default {Double : Type} (cfg : BuildConfig) (app : SampleApp Double) :
    SampleApp Double :=
  if cfg.D3D12_SUPPORTED then { app with m_DeviceType := DeviceType.D3D12 }
  else if cfg.VULKAN_SUPPORTED then { app with m_DeviceType := DeviceType.Vulkan }
  else if cfg.D3D11_SUPPORTED then { app with m_DeviceType := DeviceType.D3D11 }
  else if cfg.GL_SUPPORTED || cfg.GLES_SUPPORTED then
    { app with m_DeviceType := DeviceType.OpenGL }
  else app

/-- The `switch (m_DeviceType)` of `ProcessCommandLine` that appends the backend to the
application title; a case exists only for a backend that is compiled in. -/
def ProcessCommandLine_title {Double : Type} (cfg : BuildConfig) (app : SampleApp Double) :
    SampleApp Double :=
  let unexpected : SampleApp Double :=
    { app with Messages := app.Messages ++ ["Unknown/unsupported device type"] }
  match app.m_DeviceType with
  | DeviceType.D3D11 =>
    if cfg.D3D11_SUPPORTED then { app with m_AppTitle := app.m_AppTitle ++ " (D3D11)" }
    else unexpected
  | DeviceType.D3D12 =>
    if cfg.D3D12_SUPPORTED then { app with m_AppTitle := app.m_AppTitle ++ " (D3D12)" }
    else unexpected
  | DeviceType.OpenGL =>
    if cfg.GL_SUPPORTED || cfg.GLES_SUPPORTED then
      { app with m_AppTitle := app.m_AppTitle ++ " (OpenGL)" }
    else unexpected
  | DeviceType.Vulkan =>
    if cfg.VULKAN_SUPPORTED then { app with m_AppTitle := app.m_AppTitle ++ " (Vulkan)" }
    else unexpected
  | _ => unexpected

/-- The part of `ProcessCommandLine` after the loop: `SelectDeviceType()` (a virtual
function of the platform application, taken as a parameter) and the default device type
when `m_DeviceType` is undefined, then the title. -/
def ProcessCommandLine_finish {Double : Type} (cfg : BuildConfig)
    (SelectDeviceType : SampleApp Double → SampleApp Double) (app : SampleApp Double) :
    SampleApp Double :=
  let app1 :=
    if app.m_DeviceType = DeviceType.Undefined then
      let app2 := SelectDeviceType app
      if app2.m_DeviceType = DeviceType.Undefined then ProcessCommandLine_default cfg app2
      else app2
    else app
  ProcessCommandLine_title cfg app1

/-- `void SampleApp::ProcessCommandLine(const char* CmdLine)`. The final call
`m_TheSample->ProcessCommandLine(CmdLine)` acts on the sample object only, which is not
part of the state modelled here. The result is `none` if the loop ran out of fuel, an
`error` if an exception was thrown, and the final state otherwise. -/
def ProcessCommandLine {Double : Type} (cfg : BuildConfig) (atof : CStr → Double)
    (SelectDeviceType : SampleApp Double → SampleApp Double) (CmdLine : CStr)
    (app : SampleApp Double) : Option (Except String (SampleApp Double)) :=
  match ProcessCommandLine_loop cfg atof (CmdLine.length + 1) (strchr CmdLine '-') app with
  | none => none
  | some (.error e) => some (.error e)
  | some (.ok app1) => some (.ok (ProcessCommandLine_finish cfg SelectDeviceType app1))

/-! ## `Tutorial00App::ProcessCommandLine` (Tutorial00_HelloWin32.cpp, Tutorial15_MultipleWindows.cpp) -/

/-- C library `strlen`. -/
def strlen (s : CStr) : Nat := (s.takeWhile (· ≠ NUL)).length

/-- The state of `Tutorial00App` used by its command-line handling: the member
`m_DeviceType` and what has been written to `std::cerr`. -/
structure Tutorial00App where
  m_DeviceType : DeviceType
  cerr : List String
  deriving DecidableEq, Repr

/-- `bool Tutorial00App::ProcessCommandLine(const char *CmdLine)`, the same text in both
tutorials: the returned flag and the state on return. Only `GL_SUPPORTED` stands for
OpenGL here. -/
def Tutorial00App.ProcessCommandLine (cfg : BuildConfig) (CmdLine : CStr)
    (app : Tutorial00App) : Bool × Tutorial00App :=
  let Key : CStr := "-mode ".toList
  match strstr CmdLine Key with
  | some pos0 =>
    let pos := pos0.drop (strlen Key)
    if stricmp pos "D3D11".toList = 0 then
      if cfg.D3D11_SUPPORTED then (true, { app with m_DeviceType := DeviceType.D3D11 })
      else (false, { app with cerr := app.cerr ++
        ["Direct3D11 is not supported. Please select another device type"] })
    else if stricmp pos "D3D12".toList = 0 then
      if cfg.D3D12_SUPPORTED then (true, { app with m_DeviceType := DeviceType.D3D12 })
      else (false, { app with cerr := app.cerr ++
        ["Direct3D12 is not supported. Please select another device type"] })
    else if stricmp pos "GL".toList = 0 then
      if cfg.GL_SUPPORTED then (true, { app with m_DeviceType := DeviceType.OpenGL })
      else (false, { app with cerr := app.cerr ++
        ["OpenGL is not supported. Please select another device type"] })
    else if stricmp pos "VK".toList = 0 then
      if cfg.VULKAN_SUPPORTED then (true, { app with m_DeviceType := DeviceType.Vulkan })
      else (false, { app with cerr := app.cerr ++
        ["Vulkan is not supported. Please select another device type"] })
    else
      (false, { app with cerr := app.cerr ++
        ["Unknown device type. Only the following types are supported: D3D11, D3D12, GL, VK"] })
  | none =>
    if cfg.D3D12_SUPPORTED then (true, { app with m_DeviceType := DeviceType.D3D12 })
    else if cfg.VULKAN_SUPPORTED then (true, { app with m_DeviceType := DeviceType.Vulkan })
    else if cfg.D3D11_SUPPORTED then (true, { app with m_DeviceType := DeviceType.D3D11 })
    else if cfg.GL_SUPPORTED then (true, { app with m_DeviceType := DeviceType.OpenGL })
    else (true, app)

/-! ## Capability checks of `Initialize` (Tutorial08_Tessellation.cpp, Tutorial14_ComputeShader.cpp) -/

/-- The two capability flags of the engine structure `DeviceCaps` that the tutorials test. -/
structure DeviceCaps where
  bTessellationSupported : Bool
  bComputeShadersSupported : Bool
  deriving DecidableEq, Repr

/-- `void Tutorial08_Tessellation::Initialize(...)`. The sample state is of any type `σ`;
`SampleBase::Initialize`, `CreatePipelineStates` and `LoadTextures` are the state changes
made by those calls. The result is the state on exit and the message of the
`std::runtime_error` thrown, if any. -/
def Tutorial08_Tessellation.Initialize {σ : Type}
    (SampleBase_Initialize CreatePipelineStates LoadTextures : σ → σ)
    (deviceCaps : DeviceCaps) (sample : σ) : σ × Option String :=
  if !deviceCaps.bTessellationSupported then
    (sample, some "Hardware tessellation is not supported")
  else
    (LoadTextures (CreatePipelineStates (SampleBase_Initialize sample)), none)

/-- `void Tutorial14_ComputeShader::Initialize(...)`, modelled as the tessellation one. -/
def Tutorial14_ComputeShader.Initialize {σ : Type}
    (SampleBase_Initialize CreateConsantBuffer CreateRenderParticlePSO
      CreateUpdateParticlePSO CreateParticleBuffers : σ → σ)
    (deviceCaps : DeviceCaps) (sample : σ) : σ × Option String :=
  if !deviceCaps.bComputeShadersSupported then
    (sample, some "Compute shaders are required to run this tutorial")
  else
    (CreateParticleBuffers (CreateUpdateParticlePSO (CreateRenderParticlePSO
      (CreateConsantBuffer (SampleBase_Initialize sample)))), none)

/-! ## Display-mode labels of `SampleApp::UpdateAdaptersDialog` (SampleApp.cpp) -/

/-- Engine enumeration `SCALING_MODE`. -/
inductive SCALING_MODE
  | SCALING_MODE_UNSPECIFIED | SCALING_MODE_CENTERED | SCALING_MODE_STRETCHED
  deriving DecidableEq, Repr

/-- The numeric value of a scaling mode, `static_cast<int>(Mode.Scaling)`. -/
def SCALING_MODE.toInt : SCALING_MODE → Nat
  | SCALING_MODE_UNSPECIFIED => 0
  | SCALING_MODE_CENTERED => 1
  | SCALING_MODE_STRETCHED => 2

/-- Engine structure `DisplayModeAttribs`. -/
structure DisplayModeAttribs where
  Width : Nat
  Height : Nat
  RefreshRateNumerator : Nat
  RefreshRateDenominator : Nat
  Scaling : SCALING_MODE
  deriving DecidableEq, Repr

/-- The array `ScalingModeStr` as the compiler reads its initialiser: adjacent string
literals are one literal, and no comma separates `""` from `" Centered"`. -/
def ScalingModeStr : List String :=
  ["" ++ " Centered",
   " Stretched"]

/-- The label built for one display mode in `UpdateAdaptersDialog`. `RefreshRate` formats
the refresh rate with two decimals (floating point, taken as a parameter). The result is
`none` when the index into `ScalingModeStr` is outside the array. -/
def DisplayModeString (RefreshRate : Nat → Nat → String) (Mode : DisplayModeAttribs) :
    Option String :=
  match ScalingModeStr[Mode.Scaling.toInt]? with
  | some suffix =>
    some (toString Mode.Width ++ "x" ++ toString Mode.Height ++ "@" ++
      RefreshRate Mode.RefreshRateNumerator Mode.RefreshRateDenominator ++ " Hz" ++ suffix)
  | none => none

/-! ## `Tutorial11_ResourceUpdates::MapTexture` (Tutorial11_ResourceUpdates.cpp) -/

/-- Width and height of the engine structure `TextureDesc`. -/
structure TextureDesc where
  Width : Nat
  Height : Nat
  deriving DecidableEq, Repr

/-- The x and y extent of the engine structure `Box`; a default-constructed box has all
four at zero. -/
structure Box where
  MinX : Nat := 0
  MaxX : Nat := 0
  MinY : Nat := 0
  MaxY : Nat := 0
  deriving DecidableEq, Repr

/-- The outcomes of the four `std::uniform_int_distribution<Uint32>` draws of `MapTexture`,
in the order they are made. -/
structure MapDraws where
  Width : Nat
  Height : Nat
  MinX : Nat
  MinY : Nat
  deriving DecidableEq, Repr

/-- What `MapTexture` asks of the engine: the index of the texture passed to
`MapTextureSubresource`, the `pMapRegion` argument (`none` for `nullptr`) and the width and
height passed to `WriteDiamondPattern`. -/
structure MapRequest where
  Texture : Nat
  pMapRegion : Option Box
  PatternWidth : Nat
  PatternHeight : Nat
  deriving DecidableEq, Repr

/-- Arithmetic of `Uint32`. -/
def Uint32 (n : Int) : Nat := (n % 2 ^ 32).toNat

/-- `void Tutorial11_ResourceUpdates::MapTexture(Uint32 TexIndex, bool MapEntireTexture)`.
`m_Textures i` is the description of the texture stored at index `i`. -/
def MapTexture (m_Textures : Nat → TextureDesc) (draws : MapDraws) (TexIndex : Nat)
    (MapEntireTexture : Bool) : MapRequest :=
  let Texture := TexIndex
  let TexDesc := m_Textures 2
  let MapRegion : Box :=
    if MapEntireTexture then
      { MaxX := TexDesc.Width, MaxY := TexDesc.Height }
    else
      let Width := draws.Width
      let Height := draws.Height
      let MinX := draws.MinX
      let MinY := draws.MinY
      { MinX := MinX, MinY := MinY,
        MaxX := Uint32 ((MinX : Int) + Width), MaxY := Uint32 ((MinY : Int) + Height) }
  { Texture := Texture,
    pMapRegion := if MapEntireTexture then none else some MapRegion,
    PatternWidth := Uint32 ((MapRegion.MaxX : Int) - MapRegion.MinX),
    PatternHeight := Uint32 ((MapRegion.MaxY : Int) - MapRegion.MinY) }

/-- The ranges of the four draws of `MapTexture`: `Width` and `Height` in
`[2, MaxMapRegionSize]`, `MinX` in `[0, TexDesc.Width - Width]` and `MinY` in
`[0, TexDesc.Height - Height]`, with `Uint32` subtraction and the description of texture 2. -/
def MapDraws.inRange (MaxMapRegionSize : Nat) (m_Textures : Nat → TextureDesc)
    (draws : MapDraws) : Prop :=
  2 ≤ draws.Width ∧ draws.Width ≤ MaxMapRegionSize ∧
  2 ≤ draws.Height ∧ draws.Height ≤ MaxMapRegionSize ∧
  draws.MinX ≤ Uint32 (((m_Textures 2).Width : Int) - draws.Width) ∧
  draws.MinY ≤ Uint32 (((m_Textures 2).Height : Int) - draws.Height)

/-- A map request stays inside a texture: the pattern written and the mapped box lie
within the width and height of the texture. -/
def MapRequest.within (r : MapRequest) (Tex : TextureDesc) : Prop :=
  r.PatternWidth ≤ Tex.Width ∧ r.PatternHeight ≤ Tex.Height ∧
  match r.pMapRegion with
  | none => True
  | some b => b.MinX ≤ b.MaxX ∧ b.MaxX ≤ Tex.Width ∧ b.MinY ≤ b.MaxY ∧ b.MaxY ≤ Tex.Height

/-! ## Platform applications (SampleAppLinux.cpp, SampleAppAndroid.cpp) -/

/-- The constructor `SampleAppLinux::SampleAppLinux()`: it presets the device type. -/
def SampleAppLinux.ctor {Double : Type} (app : SampleApp Double) :
    SampleApp Double :=
  { app with m_DeviceType := DeviceType.OpenGL }

/-- The constructor `SampleAppAndroid::SampleAppAndroid()`: it presets the device type. -/
def SampleAppAndroid.ctor {Double : Type} (app : SampleApp Double) :
    SampleApp Double :=
  { app with m_DeviceType := DeviceType.OpenGLES }

/-- Xlib event type `KeyRelease` (X.h). -/
def KeyRelease : Int := 3

/-- Xlib event type `ButtonRelease` (X.h). -/
def ButtonRelease : Int := 5

/-- Xlib event type `MotionNotify` (X.h). -/
def MotionNotify : Int := 6

/-- XCB event type `XCB_KEY_RELEASE` (xproto.h). -/
def XCB_KEY_RELEASE : Nat := 3

/-- XCB event type `XCB_BUTTON_RELEASE` (xproto.h). -/
def XCB_BUTTON_RELEASE : Nat := 5

/-- XCB event type `XCB_MOTION_NOTIFY` (xproto.h). -/
def XCB_MOTION_NOTIFY : Nat := 6

/-- The field of the Xlib union `XEvent` that the application reads. -/
structure XEvent where
  type : Int
  deriving DecidableEq, Repr

/-- The field of `xcb_generic_event_t` that the application reads, a `uint8_t`. -/
structure xcb_generic_event_t where
  response_type : Nat
  deriving DecidableEq, Repr

/-- A call made by an event handler of the application: to the ImGui implementation or to
the input controller of the sample. -/
inductive HandlerCall
  | ImGui | InputController
  deriving DecidableEq, Repr

/-- `int SampleAppLinux::HandleXEvent(XEvent *xev)`. The two handlers are given by the
flag each of them returns for an event. The result is the returned flag and the calls
made, in order. -/
def SampleAppLinux.HandleXEvent (ImGui_HandleXEvent InputController_HandleXEvent : XEvent → Bool)
    (xev : XEvent) : Bool × List HandlerCall :=
  let handled := ImGui_HandleXEvent xev
  if !handled || xev.type = ButtonRelease || xev.type = MotionNotify ||
      xev.type = KeyRelease then
    (InputController_HandleXEvent xev, [HandlerCall.ImGui, HandlerCall.InputController])
  else
    (handled, [HandlerCall.ImGui])

/-- `void SampleAppLinux::HandleXCBEvent(xcb_generic_event_t* event)`: the calls made, in
order. -/
def SampleAppLinux.HandleXCBEvent
    (ImGui_HandleXCBEvent InputController_HandleXCBEvent : xcb_generic_event_t → Bool)
    (event : xcb_generic_event_t) : List HandlerCall :=
  let handled := ImGui_HandleXCBEvent event
  let EventType := event.response_type &&& 0x7f
  if !handled || EventType = XCB_MOTION_NOTIFY || EventType = XCB_BUTTON_RELEASE ||
      EventType = XCB_KEY_RELEASE then
    let _handled := InputController_HandleXCBEvent event
    [HandlerCall.ImGui, HandlerCall.InputController]
  else
    [HandlerCall.ImGui]

/-! ## `SampleApp::InitializeDiligentEngine` (SampleApp.cpp) -/

/-- The member of the engine create-info structures that the application reads, a
`Uint32` that is zero by default. -/
structure EngineCreateInfo where
  NumDeferredContexts : Nat := 0
  deriving DecidableEq, Repr

/-- What `InitializeDiligentEngine` leaves behind: the messages logged, the create info
and the size of the array `ppContexts` handed to the engine factory, and the members
`m_pImmediateContext` and `m_pDeferredContexts`. -/
structure EngineContexts (Ctx : Type) where
  Messages : List String
  CreateInfo : EngineCreateInfo
  NumContexts : Nat
  m_pImmediateContext : Ctx
  m_pDeferredContexts : List Ctx
  deriving DecidableEq

/-- The lines of `InitializeDiligentEngine` after the `switch`: the first entry of
`ppContexts` becomes the immediate context and the loop attaches the others as deferred
contexts. `none` stands for the read of `ppContexts[0]` in an empty vector, which is
undefined. -/
def InitializeDiligentEngine_attach {Ctx : Type} (nullptr : Ctx) (Messages : List String)
    (CreateInfo : EngineCreateInfo) (ppContexts : List Ctx) : Option (EngineContexts Ctx) :=
  match ppContexts with
  | [] => none
  | first :: _ =>
    let NumDeferredCtx := ppContexts.length - 1
    some
      { Messages := Messages,
        CreateInfo := CreateInfo,
        NumContexts := ppContexts.length,
        m_pImmediateContext := first,
        m_pDeferredContexts :=
          (List.range NumDeferredCtx).map (fun ctx => ppContexts.getD (1 + ctx) nullptr) }

/-- `void SampleApp::InitializeDiligentEngine(...)`, as far as the device contexts go.
`GetEngineInitializationAttribs` is the virtual function of the sample that fills the
create info, `NumAdapters` the number of adapters the D3D factories enumerate, and
`CreateContexts CreateInfo i` the context that the factory writes to `ppContexts[i]`.
`LOG_ERROR_AND_THROW` is the `error` result; the outer `none` is undefined behaviour. -/
def InitializeDiligentEngine {Ctx : Type} (cfg : BuildConfig) (METAL_SUPPORTED : Bool)
    (GetEngineInitializationAttribs : DeviceType → EngineCreateInfo → EngineCreateInfo)
    (NumAdapters : Nat) (CreateContexts : EngineCreateInfo → Nat → Ctx) (nullptr : Ctx)
    (m_DeviceType : DeviceType) : Option (Except String (EngineContexts Ctx)) :=
  let create (Messages : List String) (CreateInfo : EngineCreateInfo) :
      Option (Except String (EngineContexts Ctx)) :=
    -- ppContexts.resize(1 + NumDeferredContexts); the factory fills the array
    let ppContexts := (List.range (Uint32 (1 + (CreateInfo.NumDeferredContexts : Int)))).map
      (CreateContexts CreateInfo)
    match InitializeDiligentEngine_attach nullptr Messages CreateInfo ppContexts with
    | some r => some (.ok r)
    | none => none
  let unknown : Option (Except String (EngineContexts Ctx)) :=
    some (.error "Unknown device type")
  match m_DeviceType with
  | DeviceType.D3D11 =>
    if cfg.D3D11_SUPPORTED then
      let EngineCI := GetEngineInitializationAttribs m_DeviceType {}
      if NumAdapters > 0 then create [] EngineCI
      else some (.error "Failed to find compatible hardware adapters")
    else unknown
  | DeviceType.D3D12 =>
    if cfg.D3D12_SUPPORTED then
      if NumAdapters > 0 then
        let EngD3D12Attribs := GetEngineInitializationAttribs m_DeviceType {}
        create [] EngD3D12Attribs
      else some (.error "Failed to find compatible hardware adapters")
    else unknown
  | DeviceType.OpenGL | DeviceType.OpenGLES =>
    if cfg.GL_SUPPORTED || cfg.GLES_SUPPORTED then
      let CreationAttribs := GetEngineInitializationAttribs m_DeviceType {}
      if CreationAttribs.NumDeferredContexts ≠ 0 then
        create ["Deferred contexts are not supported in OpenGL mode"]
          { CreationAttribs with NumDeferredContexts := 0 }
      else create [] CreationAttribs
    else unknown
  | DeviceType.Vulkan =>
    if cfg.VULKAN_SUPPORTED then
      let EngVkAttribs := GetEngineInitializationAttribs m_DeviceType {}
      create [] EngVkAttribs
    else unknown
  | DeviceType.Metal =>
    if METAL_SUPPORTED then
      let MtlAttribs := GetEngineInitializationAttribs m_DeviceType {}
      create [] MtlAttribs
    else unknown
  | DeviceType.Undefined => unknown

/-! ## `Tutorial14_ComputeShader::Render` (Tutorial14_ComputeShader.cpp) -/

/-- The members of `Tutorial14_ComputeShader` and of the swap chain description that
`Render` reads. `Float` stands for the C type `float`, whose arithmetic is not modelled;
`m_NumParticles` is an `int`. -/
structure Tutorial14_ComputeShader (Float : Type) where
  m_NumParticles : Int
  m_fTimeDelta : Float
  m_fSimulationSpeed : Float
  SwapChainWidth : Nat
  SwapChainHeight : Nat

/-- The pipeline states of the compute tutorial. -/
inductive Tutorial14PSO
  | m_pResetParticleListsPSO | m_pMoveParticlesPSO | m_pCollideParticlesPSO
  | m_pUpdateParticleSpeedPSO | m_pRenderParticlePSO
  deriving DecidableEq, Repr

/-- The shader resource bindings of the compute tutorial. -/
inductive Tutorial14SRB
  | m_pResetParticleListsSRB | m_pMoveParticlesSRB | m_pCollideParticlesSRB
  | m_pRenderParticleSRB
  deriving DecidableEq, Repr

/-- A call on `m_pImmediateContext`. `MapBuffer` and `UnmapBuffer` are the two calls made
by a `MapHelper` on the buffer `m_Constants`; `UnmapBuffer` carries the data written in
between. -/
inductive ContextCall (Constants : Type)
  | ClearRenderTarget
  | ClearDepthStencil
  | MapBuffer
  | UnmapBuffer (ConstData : Constants)
  | SetPipelineState (pPipelineState : Tutorial14PSO)
  | CommitShaderResources (pShaderResourceBinding : Tutorial14SRB)
  | DispatchCompute (ThreadGroupCountX : Nat)
  | Draw (NumVertices NumInstances : Nat)
  deriving DecidableEq

/-- `void Tutorial14_ComputeShader::Render()`: the calls made on the immediate context, in
order. `m_ThreadGroupSize` is a constant of the class, and `ConstData` the contents
written to the constant buffer, which are computed in floating point; both are
parameters. The integer division is that of C++. -/
def Tutorial14_ComputeShader.Render {Float Constants : Type} (m_ThreadGroupSize : Int)
    (ConstData : Tutorial14_ComputeShader Float → Constants)
    (sample : Tutorial14_ComputeShader Float) : List (ContextCall Constants) :=
  let ThreadGroupCountX :=
    Uint32 (Int.tdiv (sample.m_NumParticles + m_ThreadGroupSize - 1) m_ThreadGroupSize)
  [ ContextCall.ClearRenderTarget,
    ContextCall.ClearDepthStencil,
    ContextCall.MapBuffer,
    ContextCall.UnmapBuffer (ConstData sample),
    ContextCall.SetPipelineState Tutorial14PSO.m_pResetParticleListsPSO,
    ContextCall.CommitShaderResources Tutorial14SRB.m_pResetParticleListsSRB,
    ContextCall.DispatchCompute ThreadGroupCountX,
    ContextCall.SetPipelineState Tutorial14PSO.m_pMoveParticlesPSO,
    ContextCall.CommitShaderResources Tutorial14SRB.m_pMoveParticlesSRB,
    ContextCall.DispatchCompute ThreadGroupCountX,
    ContextCall.SetPipelineState Tutorial14PSO.m_pCollideParticlesPSO,
    ContextCall.CommitShaderResources Tutorial14SRB.m_pCollideParticlesSRB,
    ContextCall.DispatchCompute ThreadGroupCountX,
    ContextCall.SetPipelineState Tutorial14PSO.m_pUpdateParticleSpeedPSO,
    ContextCall.CommitShaderResources Tutorial14SRB.m_pCollideParticlesSRB,
    ContextCall.DispatchCompute ThreadGroupCountX,
    ContextCall.SetPipelineState Tutorial14PSO.m_pRenderParticlePSO,
    ContextCall.CommitShaderResources Tutorial14SRB.m_pRenderParticleSRB,
    ContextCall.Draw 4 (Uint32 sample.m_NumParticles) ]

/-! ## Vocabulary of the properties -/

/-- The text of a C string: the characters before the terminator. -/
def text (s : CStr) : List Char := s.takeWhile (· ≠ NUL)

/-- One of the three delimiters `' '`, `'\n'`, `'\r'`. -/
def isDelimeter (c : Char) : Bool := c = ' ' ∨ c = '\n' ∨ c = '\r'

/-- A character of a token: neither a delimiter nor the terminator. -/
def isTokenChar (c : Char) : Bool := c ≠ NUL ∧ ¬ isDelimeter c

/-- The token at a position: the maximal run of characters up to the first delimiter or
the terminator. -/
def tokenAt (pos : CStr) : List Char := pos.takeWhile isTokenChar

/-- Two texts are equal ignoring case. -/
def eqNoCase (a b : List Char) : Prop := a.map tolower = b.map tolower

instance (a b : List Char) : Decidable (eqNoCase a b) := by
  unfold eqNoCase; infer_instance

/-- The configuration with the four backends D3D11, D3D12, OpenGL and Vulkan compiled in. -/
def allBackends : BuildConfig :=
  { D3D11_SUPPORTED := true, D3D12_SUPPORTED := true, GL_SUPPORTED := true,
    GLES_SUPPORTED := false, VULKAN_SUPPORTED := true }

/-- The backend of a device type is compiled into the sample application. -/
def BuildConfig.supports (cfg : BuildConfig) : DeviceType → Bool
  | DeviceType.D3D11 => cfg.D3D11_SUPPORTED
  | DeviceType.D3D12 => cfg.D3D12_SUPPORTED
  | DeviceType.OpenGL => cfg.GL_SUPPORTED || cfg.GLES_SUPPORTED
  | DeviceType.Vulkan => cfg.VULKAN_SUPPORTED
  | _ => false

/-- The fixed priority of the default backend: D3D12, then Vulkan, then D3D11, then
OpenGL. -/
def backendPriority : List DeviceType :=
  [DeviceType.D3D12, DeviceType.Vulkan, DeviceType.D3D11, DeviceType.OpenGL]

/-- The first backend in the order of priority among those compiled in, if there is one. -/
def defaultDeviceType (cfg : BuildConfig) : Option DeviceType :=
  backendPriority.find? cfg.supports

/-- The build of a Win32 tutorial, which has no switch for OpenGL ES. -/
def BuildConfig.tutorial (cfg : BuildConfig) : BuildConfig :=
  { cfg with GLES_SUPPORTED := false }

/-! ## Command lines made of `-name value` pairs -/

/-- The option names recognised by `SampleApp::ProcessCommandLine`. -/
inductive OptionName
  | mode | capture_path | capture_name | capture_fps | capture_frames | capture_format
  | capture_quality | capture_alpha | width | height | validation
  deriving DecidableEq, Repr

/-- An option name written in full. -/
def OptionName.text : OptionName → List Char
  | mode => "mode".toList
  | capture_path => "capture_path".toList
  | capture_name => "capture_name".toList
  | capture_fps => "capture_fps".toList
  | capture_frames => "capture_frames".toList
  | capture_format => "capture_format".toList
  | capture_quality => "capture_quality".toList
  | capture_alpha => "capture_alpha".toList
  | width => "width".toList
  | height => "height".toList
  | validation => "validation".toList

/-- One `-name value` pair of a command line. -/
structure CmdOption where
  name : OptionName
  value : List Char
  deriving DecidableEq, Repr

/-- The device type named by a `-mode` value: `D3D11`, `D3D12`, `GL` or `VK`, ignoring
case; `Undefined` for any other text. -/
def deviceTypeOfValue (v : List Char) : DeviceType :=
  if eqNoCase v "D3D11".toList then DeviceType.D3D11
  else if eqNoCase v "D3D12".toList then DeviceType.D3D12
  else if eqNoCase v "GL".toList then DeviceType.OpenGL
  else if eqNoCase v "VK".toList then DeviceType.Vulkan
  else DeviceType.Undefined

/-- The number written by a sequence of decimal digits. -/
def decimalValue (v : List Char) : Int :=
  v.foldl (fun acc c => acc * 10 + ((c.toNat : Int) - 48)) 0

/-- The file format named by a `-capture_format` value: `jpeg` or `jpg` for jpeg, else
png. -/
def fileFormatOfValue (v : List Char) : EImageFileFormat :=
  if eqNoCase v "jpeg".toList ∨ eqNoCase v "jpg".toList then EImageFileFormat.jpeg
  else EImageFileFormat.png

/-- The truth value written by `true` (ignoring case) or `1`. -/
def boolOfValue (v : List Char) : Bool :=
  decide (eqNoCase v "true".toList ∨ v = "1".toList)

/-- The validation mode written by a `-validation` value: `true`, `1` or `enable` enable
it, anything else disables it. -/
def validationOfValue (v : List Char) : ValidationMode :=
  if eqNoCase v "true".toList ∨ v = "1".toList ∨ eqNoCase v "enable".toList then
    ValidationMode.Enable
  else ValidationMode.Disable

/-- The values that are valid for an option name. -/
def validValue (cfg : BuildConfig) : OptionName → List Char → Prop
  | OptionName.mode, v => cfg.supports (deviceTypeOfValue v) = true
  | OptionName.capture_path, _ => True
  | OptionName.capture_name, _ => True
  | OptionName.capture_fps, _ => True
  | OptionName.capture_frames, v => ∀ c ∈ v, isdigit c = true
  | OptionName.capture_format, v =>
    eqNoCase v "jpeg".toList ∨ eqNoCase v "jpg".toList ∨ eqNoCase v "png".toList
  | OptionName.capture_quality, v => ∀ c ∈ v, isdigit c = true
  | OptionName.capture_alpha, v =>
    eqNoCase v "true".toList ∨ eqNoCase v "false".toList ∨ v = "1".toList ∨ v = "0".toList
  | OptionName.width, v => ∀ c ∈ v, isdigit c = true
  | OptionName.height, v => ∀ c ∈ v, isdigit c = true
  | OptionName.validation, v =>
    eqNoCase v "true".toList ∨ eqNoCase v "false".toList ∨ v = "1".toList ∨
      v = "0".toList ∨ eqNoCase v "enable".toList ∨ eqNoCase v "disable".toList

instance (cfg : BuildConfig) (n : OptionName) (v : List Char) : Decidable (validValue cfg n v) := by
  cases n <;> unfold validValue <;> infer_instance

/-- A well-formed option: the value is not empty, holds no delimiter, no terminator and
no `-`, and is valid for the name. -/
def CmdOption.valid (cfg : BuildConfig) (o : CmdOption) : Prop :=
  o.value ≠ [] ∧ (∀ c ∈ o.value, isTokenChar c = true ∧ c ≠ '-') ∧ validValue cfg o.name o.value

instance (cfg : BuildConfig) (o : CmdOption) : Decidable (o.valid cfg) := by
  unfold CmdOption.valid; infer_instance

/-- The command line that writes the options in order, each as `-name value`, separated
by one space. -/
def commandLineOf : List CmdOption → CStr
  | [] => []
  | [o] => '-' :: (o.name.text ++ ' ' :: o.value)
  | o :: o1 :: os => '-' :: (o.name.text ++ ' ' :: (o.value ++ ' ' :: commandLineOf (o1 :: os)))

/-- What an option means: it sets its own field to its value. The two capture options
that name a file also allow the capture. -/
def applyOption {Double : Type} (atof : CStr → Double) (app : SampleApp Double)
    (o : CmdOption) : SampleApp Double :=
  match o.name with
  | OptionName.mode => { app with m_DeviceType := deviceTypeOfValue o.value }
  | OptionName.capture_path =>
    { app with m_ScreenCaptureInfo :=
        { app.m_ScreenCaptureInfo with Directory := o.value, AllowCapture := true } }
  | OptionName.capture_name =>
    { app with m_ScreenCaptureInfo :=
        { app.m_ScreenCaptureInfo with FileName := o.value, AllowCapture := true } }
  | OptionName.capture_fps =>
    { app with m_ScreenCaptureInfo :=
        { app.m_ScreenCaptureInfo with CaptureFPS := atof o.value } }
  | OptionName.capture_frames =>
    { app with m_ScreenCaptureInfo :=
        { app.m_ScreenCaptureInfo with FramesToCapture := decimalValue o.value } }
  | OptionName.capture_format =>
    { app with m_ScreenCaptureInfo :=
        { app.m_ScreenCaptureInfo with FileFormat := fileFormatOfValue o.value } }
  | OptionName.capture_quality =>
    { app with m_ScreenCaptureInfo :=
        { app.m_ScreenCaptureInfo with JpegQuality := decimalValue o.value } }
  | OptionName.capture_alpha =>
    { app with m_ScreenCaptureInfo :=
        { app.m_ScreenCaptureInfo with KeepAlpha := boolOfValue o.value } }
  | OptionName.width => { app with m_InitialWindowWidth := decimalValue o.value }
  | OptionName.height => { app with m_InitialWindowHeight := decimalValue o.value }
  | OptionName.validation => { app with m_ValidationMode := validationOfValue o.value }

/-- A value held by one of the fields that the options write. -/
inductive FieldValue (Double : Type)
  | deviceType (d : DeviceType)
  | string (s : List Char)
  | double (x : Double)
  | int (n : Int)
  | fileFormat (f : EImageFileFormat)
  | bool (b : Bool)
  | validation (m : ValidationMode)

/-- The field of the application that belongs to an option name. -/
def fieldOf {Double : Type} (n : OptionName) (app : SampleApp Double) : FieldValue Double :=
  match n with
  | OptionName.mode => FieldValue.deviceType app.m_DeviceType
  | OptionName.capture_path => FieldValue.string app.m_ScreenCaptureInfo.Directory
  | OptionName.capture_name => FieldValue.string app.m_ScreenCaptureInfo.FileName
  | OptionName.capture_fps => FieldValue.double app.m_ScreenCaptureInfo.CaptureFPS
  | OptionName.capture_frames => FieldValue.int app.m_ScreenCaptureInfo.FramesToCapture
  | OptionName.capture_format => FieldValue.fileFormat app.m_ScreenCaptureInfo.FileFormat
  | OptionName.capture_quality => FieldValue.int app.m_ScreenCaptureInfo.JpegQuality
  | OptionName.capture_alpha => FieldValue.bool app.m_ScreenCaptureInfo.KeepAlpha
  | OptionName.width => FieldValue.int app.m_InitialWindowWidth
  | OptionName.height => FieldValue.int app.m_InitialWindowHeight
  | OptionName.validation => FieldValue.validation app.m_ValidationMode

/-- The value that an option writes. -/
def valueOf {Double : Type} (atof : CStr → Double) (o : CmdOption) : FieldValue Double :=
  match o.name with
  | OptionName.mode => FieldValue.deviceType (deviceTypeOfValue o.value)
  | OptionName.capture_path => FieldValue.string o.value
  | OptionName.capture_name => FieldValue.string o.value
  | OptionName.capture_fps => FieldValue.double (atof o.value)
  | OptionName.capture_frames => FieldValue.int (decimalValue o.value)
  | OptionName.capture_format => FieldValue.fileFormat (fileFormatOfValue o.value)
  | OptionName.capture_quality => FieldValue.int (decimalValue o.value)
  | OptionName.capture_alpha => FieldValue.bool (boolOfValue o.value)
  | OptionName.width => FieldValue.int (decimalValue o.value)
  | OptionName.height => FieldValue.int (decimalValue o.value)
  | OptionName.validation => FieldValue.validation (validationOfValue o.value)

/-- An option that names a capture file, and so allows the capture. -/
def CmdOption.allowsCapture (o : CmdOption) : Bool :=
  decide (o.name = OptionName.capture_path ∨ o.name = OptionName.capture_name)

/-- The options of the command line documented above `ProcessCommandLine`. -/
def documentedOptions : List CmdOption :=
  [⟨OptionName.mode, "d3d11".toList⟩, ⟨OptionName.capture_path, ".".toList⟩,
   ⟨OptionName.capture_fps, "15".toList⟩, ⟨OptionName.capture_name, "frame".toList⟩,
   ⟨OptionName.width, "640".toList⟩, ⟨OptionName.height, "480".toList⟩,
   ⟨OptionName.capture_format, "jpg".toList⟩, ⟨OptionName.capture_quality, "100".toList⟩,
   ⟨OptionName.capture_frames, "3".toList⟩, ⟨OptionName.capture_alpha, "0".toList⟩]

/-- A state of the application before the command line is read, used to run the
documented command line: no device type, no capture, png, the title `Sample`. -/
def initialApp : SampleApp Int :=
  { m_DeviceType := DeviceType.Undefined,
    m_ScreenCaptureInfo :=
      { AllowCapture := false, Directory := [], FileName := [], CaptureFPS := 30,
        FramesToCapture := 0, FileFormat := EImageFileFormat.png, JpegQuality := 95,
        KeepAlpha := true },
    m_InitialWindowWidth := 0, m_InitialWindowHeight := 0,
    m_ValidationMode := ValidationMode.Default, m_AppTitle := "Sample", Messages := [] }

/-- The state the documented command line leads to from `initialApp`. -/
def documentedApp : SampleApp Int :=
  { m_DeviceType := DeviceType.D3D11,
    m_ScreenCaptureInfo :=
      { AllowCapture := true, Directory := ".".toList, FileName := "frame".toList,
        CaptureFPS := 15, FramesToCapture := 3, FileFormat := EImageFileFormat.jpeg,
        JpegQuality := 100, KeepAlpha := false },
    m_InitialWindowWidth := 640, m_InitialWindowHeight := 480,
    m_ValidationMode := ValidationMode.Default, m_AppTitle := "Sample (D3D11)",
    Messages := [] }

/-! ## Vocabulary of the later properties -/

/-- A mode other than the OpenGL ones in which `InitializeDiligentEngine` creates the
engine: the backend is compiled in and, for the two Direct3D backends, an adapter is
found. -/
def engineAvailable (cfg : BuildConfig) (METAL_SUPPORTED : Bool) (NumAdapters : Nat) :
    DeviceType → Bool
  | DeviceType.D3D11 => cfg.D3D11_SUPPORTED && decide (NumAdapters > 0)
  | DeviceType.D3D12 => cfg.D3D12_SUPPORTED && decide (NumAdapters > 0)
  | DeviceType.Vulkan => cfg.VULKAN_SUPPORTED
  | DeviceType.Metal => METAL_SUPPORTED
  | _ => false

/-- A call that issues a GPU command or sets the state for one; the two calls that map
the constant buffer for the CPU are not. -/
def ContextCall.isGPUCommand {Constants : Type} : ContextCall Constants → Bool
  | ContextCall.MapBuffer => false
  | ContextCall.UnmapBuffer _ => false
  | _ => true

/-- One compute pass: set the pipeline state, commit the resource binding, dispatch. -/
def computePass {Constants : Type} (pso : Tutorial14PSO) (srb : Tutorial14SRB)
    (dispatchSize : Nat) : List (ContextCall Constants) :=
  [ContextCall.SetPipelineState pso, ContextCall.CommitShaderResources srb,
   ContextCall.DispatchCompute dispatchSize]

/-- The GPU commands of a frame of the compute tutorial, for a dispatch size and an
instance count: the two clears, the four compute passes `reset particle lists`, `move
particles`, `collide particles` and `update particle speed` (the last two with the collide
binding), and one instanced draw of 4 vertices. -/
def frameCommands {Constants : Type} (dispatchSize instanceCount : Nat) :
    List (ContextCall Constants) :=
  [ContextCall.ClearRenderTarget, ContextCall.ClearDepthStencil] ++
  computePass Tutorial14PSO.m_pResetParticleListsPSO Tutorial14SRB.m_pResetParticleListsSRB
    dispatchSize ++
  computePass Tutorial14PSO.m_pMoveParticlesPSO Tutorial14SRB.m_pMoveParticlesSRB
    dispatchSize ++
  computePass Tutorial14PSO.m_pCollideParticlesPSO Tutorial14SRB.m_pCollideParticlesSRB
    dispatchSize ++
  computePass Tutorial14PSO.m_pUpdateParticleSpeedPSO Tutorial14SRB.m_pCollideParticlesSRB
    dispatchSize ++
  [ContextCall.SetPipelineState Tutorial14PSO.m_pRenderParticlePSO,
   ContextCall.CommitShaderResources Tutorial14SRB.m_pRenderParticleSRB,
   ContextCall.Draw 4 instanceCount]

/-! # Properties -/

/-! ## C strings -/

theorem tolower_eq_NUL (c : Char) : tolower c = NUL ↔ c = NUL := by
  unfold tolower
  split
  · rename_i h
    constructor
    · intro h2
      exfalso
      have h3 := congrArg Char.toNat h2
      obtain ⟨h4, h5⟩ := h
      generalize c.toNat = k at *
      interval_cases k <;> revert h3 <;> decide
    · intro h2
      subst h2
      exact absurd h (by decide)
  · exact Iff.rfl

theorem tolower_NUL : tolower NUL = NUL := by decide

theorem toNat_sub_eq_zero (a b : Char) : (a.toNat : Int) - (b.toNat : Int) = 0 ↔ a = b := by
  constructor
  · intro h
    have h2 : a.toNat = b.toNat := by omega
    rw [← Char.ofNat_toNat a, ← Char.ofNat_toNat b, h2]
  · rintro rfl; simp

theorem text_nil : text [] = [] := rfl

theorem text_cons (c : Char) (s : CStr) : text (c :: s) = if c = NUL then [] else c :: text s := by
  unfold text
  by_cases h : c = NUL <;> simp [List.takeWhile_cons, h]

theorem text_eq_nil_of_deref {s : CStr} (h : deref s = NUL) : text s = [] := by
  cases s with
  | nil => rfl
  | cons c s => simp only [deref] at h; simp [text_cons, h]

theorem text_of_deref_ne {s : CStr} (h : deref s ≠ NUL) : text s = deref s :: text s.tail := by
  cases s with
  | nil => exact absurd rfl h
  | cons c s => simp only [deref] at h; simp [text_cons, h, deref]

theorem StrCmpNoCase_eq_zero (n : Nat) : ∀ a b : CStr,
    StrCmpNoCase a b n = 0 ↔ ((text a).take n).map tolower = ((text b).take n).map tolower := by
  induction n with
  | zero => intro a b; simp [StrCmpNoCase]
  | succ n ih =>
    intro a b
    rw [StrCmpNoCase]
    show (if tolower (deref a) ≠ tolower (deref b) then _ else _) = (0:Int) ↔ _
    by_cases ha : deref a = NUL
    · by_cases hb : deref b = NUL
      · simp [ha, hb, text_eq_nil_of_deref, tolower_NUL]
      · have hne : ¬ tolower NUL = tolower (deref b) := fun h =>
          hb ((tolower_eq_NUL _).1 (h.symm.trans ((tolower_eq_NUL NUL).2 rfl)))
        simp [ha, text_eq_nil_of_deref ha, text_of_deref_ne hb, hne, toNat_sub_eq_zero]
    · by_cases hb : deref b = NUL
      · have hne : ¬ tolower (deref a) = tolower NUL := fun h =>
          ha ((tolower_eq_NUL _).1 (h.trans ((tolower_eq_NUL NUL).2 rfl)))
        simp [hb, text_eq_nil_of_deref hb, text_of_deref_ne ha, hne, toNat_sub_eq_zero]
      · have hla : ¬ tolower (deref a) = NUL := fun h => ha ((tolower_eq_NUL _).1 h)
        by_cases hab : tolower (deref a) = tolower (deref b)
        · rw [if_neg (not_not.2 hab), if_neg hla, ih, text_of_deref_ne ha, text_of_deref_ne hb]
          simp [hab]
        · simp [text_of_deref_ne ha, text_of_deref_ne hb, hab, toNat_sub_eq_zero]

theorem stricmp_eq_zero (a b : CStr) :
    stricmp a b = 0 ↔ (text a).map tolower = (text b).map tolower := by
  unfold stricmp
  rw [StrCmpNoCase_eq_zero]
  have hlen : (text a).length ≤ a.length := by
    unfold text; exact (List.takeWhile_sublist _).length_le
  rw [List.take_of_length_le (by omega)]
  constructor
  · intro h
    have h2 := congrArg List.length h
    simp only [List.length_map, List.length_take] at h2
    rw [h, List.take_of_length_le (by omega)]
  · intro h
    have h2 := congrArg List.length h
    simp only [List.length_map] at h2
    rw [h, List.take_of_length_le (by omega)]

/-! ## `GetArgument` -/

theorem strchr_delimeters_isSome (c : Char) :
    (strchr delimeters c).isSome = (isDelimeter c || decide (c = NUL)) := by
  by_cases h1 : c = ' '
  · subst h1; decide
  by_cases h2 : c = '\n'
  · subst h2; decide
  by_cases h3 : c = '\r'
  · subst h3; decide
  by_cases h4 : c = NUL
  · subst h4; decide
  have e1 : ¬ ' ' = c := fun h => h1 h.symm
  have e2 : ¬ '\n' = c := fun h => h2 h.symm
  have e3 : ¬ '\r' = c := fun h => h3 h.symm
  simp [strchr, delimeters, isDelimeter, h1, h2, h3, h4, e1, e2, e3]

theorem tokenChar_iff (c : Char) :
    (c ≠ NUL ∧ (strchr delimeters c).isNone = true) ↔ isTokenChar c = true := by
  have h := strchr_delimeters_isSome c
  rw [← Option.not_isSome] 
  rw [h]
  by_cases h4 : c = NUL <;> simp [isTokenChar, h4]

theorem delimChar_iff (c : Char) :
    (c ≠ NUL ∧ (strchr delimeters c).isSome = true) ↔ isDelimeter c = true := by
  rw [strchr_delimeters_isSome]
  by_cases h4 : c = NUL
  · subst h4; decide
  · simp [h4]

theorem scanArgNameLen_eq (pos : CStr) : scanArgNameLen pos = (tokenAt pos).length := by
  induction pos with
  | nil => rfl
  | cons c s ih =>
    unfold scanArgNameLen tokenAt
    rw [List.takeWhile_cons]
    by_cases h : isTokenChar c = true
    · rw [if_pos ((tokenChar_iff c).2 h), if_pos h, ih]; rfl
    · rw [if_neg (fun h2 => h ((tokenChar_iff c).1 h2)), if_neg h]; rfl

theorem skipDelimeters_eq (pos : CStr) : skipDelimeters pos = pos.dropWhile isDelimeter := by
  induction pos with
  | nil => rfl
  | cons c s ih =>
    unfold skipDelimeters
    rw [List.dropWhile_cons]
    by_cases h : isDelimeter c = true
    · rw [if_pos ((delimChar_iff c).2 h), if_pos h, ih]
    · rw [if_neg (fun h2 => h ((delimChar_iff c).1 h2)), if_neg h]

theorem readArg_eq (pos : CStr) : readArg pos = (tokenAt pos, pos.dropWhile isTokenChar) := by
  induction pos with
  | nil => rfl
  | cons c s ih =>
    unfold readArg tokenAt
    rw [List.takeWhile_cons, List.dropWhile_cons]
    by_cases h : isTokenChar c = true
    · rw [if_pos ((tokenChar_iff c).2 h), if_pos h, if_pos h, ih]; rfl
    · rw [if_neg (fun h2 => h ((tokenChar_iff c).1 h2)), if_neg h, if_neg h]

theorem drop_tokenAt (pos : CStr) : pos.drop (tokenAt pos).length = pos.dropWhile isTokenChar := by
  induction pos with
  | nil => rfl
  | cons c s ih =>
    unfold tokenAt
    rw [List.takeWhile_cons, List.dropWhile_cons]
    by_cases h : isTokenChar c = true
    · rw [if_pos h, if_pos h]; simpa [tokenAt] using ih
    · rw [if_neg h, if_neg h]; rfl

theorem take_text_tokenAt (pos : CStr) : (text pos).take (tokenAt pos).length = tokenAt pos := by
  induction pos with
  | nil => rfl
  | cons c s ih =>
    unfold tokenAt
    rw [List.takeWhile_cons]
    by_cases h : isTokenChar c = true
    · have hc : c ≠ NUL := by
        intro h2; subst h2; exact absurd h (by decide)
      rw [if_pos h, text_cons, if_neg hc]
      simpa [tokenAt] using ih
    · rw [if_neg h]; rfl

theorem tokenAt_no_NUL (pos : CStr) : NUL ∉ tokenAt pos := by
  intro h
  have := List.mem_takeWhile_imp h
  exact absurd this (by decide)

theorem tokenAt_no_delimeter (pos : CStr) (c : Char) (h : c ∈ tokenAt pos) :
    isDelimeter c = false := by
  have h2 := List.mem_takeWhile_imp h
  simp only [isTokenChar, decide_eq_true_eq] at h2
  simpa using h2.2

theorem deref_dropWhile_isTokenChar (l : CStr) :
    isTokenChar (deref (l.dropWhile isTokenChar)) = false := by
  induction l with
  | nil => decide
  | cons c s ih =>
    rw [List.dropWhile_cons]
    by_cases h : isTokenChar c = true
    · rw [if_pos h]; exact ih
    · rw [if_neg h]; simpa [deref] using h

theorem NUL_not_mem_takeWhile_isDelimeter (l : CStr) : NUL ∉ l.takeWhile isDelimeter := by
  intro h
  have := List.mem_takeWhile_imp h
  exact absurd this (by decide)

/-- The comparison made by `GetArgument`, in terms of the token at `pos`. -/
theorem GetArgument_compare (pos ArgName : CStr) :
    StrCmpNoCase pos ArgName (scanArgNameLen pos) = 0 ↔
      (tokenAt pos).map tolower =
        ((text ArgName).take (tokenAt pos).length).map tolower := by
  rw [StrCmpNoCase_eq_zero, scanArgNameLen_eq, take_text_tokenAt]

theorem GetArgument_of_match (pos ArgName : CStr)
    (h : (tokenAt pos).map tolower = ((text ArgName).take (tokenAt pos).length).map tolower) :
    GetArgument pos ArgName =
      (tokenAt ((pos.dropWhile isTokenChar).dropWhile isDelimeter),
        ((pos.dropWhile isTokenChar).dropWhile isDelimeter).dropWhile isTokenChar) := by
  unfold GetArgument
  simp only []
  rw [if_pos ((GetArgument_compare pos ArgName).2 h), scanArgNameLen_eq, drop_tokenAt,
    skipDelimeters_eq, readArg_eq]

theorem GetArgument_of_no_match (pos ArgName : CStr)
    (h : ¬ (tokenAt pos).map tolower =
      ((text ArgName).take (tokenAt pos).length).map tolower) :
    GetArgument pos ArgName = ([], pos) := by
  unfold GetArgument
  simp only []
  rw [if_neg (fun h2 => h ((GetArgument_compare pos ArgName).1 h2))]

/-- C6. When the token at `pos` equals `ArgName` ignoring case, `GetArgument` skips the
delimiters after the name and returns the maximal run of non-delimiter characters that
follows (empty when the text ends there); the result holds no `' '`, `'\n'` or `'\r'`, and
`pos` is left just past the returned token, at a delimiter or at the terminator, having
moved over no terminator. -/
theorem GetArgument_returns_next_token (pos ArgName : CStr)
    (h : eqNoCase (tokenAt pos) (text ArgName)) :
    GetArgument pos ArgName =
      (tokenAt ((pos.drop (tokenAt pos).length).dropWhile isDelimeter),
       ((pos.drop (tokenAt pos).length).dropWhile isDelimeter).dropWhile isTokenChar) ∧
    (∀ c ∈ (GetArgument pos ArgName).1, c ≠ ' ' ∧ c ≠ '\n' ∧ c ≠ '\r' ∧ c ≠ NUL) ∧
    (∃ consumed, pos = consumed ++ (GetArgument pos ArgName).2 ∧ NUL ∉ consumed) ∧
    isTokenChar (deref (GetArgument pos ArgName).2) = false := by
  have hlen : (tokenAt pos).length = (text ArgName).length := by
    have := congrArg List.length h
    simpa using this
  have hm : (tokenAt pos).map tolower =
      ((text ArgName).take (tokenAt pos).length).map tolower := by
    rw [hlen, List.take_length]; exact h
  have hG := GetArgument_of_match pos ArgName hm
  rw [← drop_tokenAt] at hG
  refine ⟨hG, ?_, ?_, ?_⟩
  · intro c hc
    rw [hG] at hc
    have h1 := tokenAt_no_delimeter _ c hc
    have h2 : c ≠ NUL := fun e => tokenAt_no_NUL _ (e ▸ hc)
    simp only [isDelimeter, decide_eq_false_iff_not, not_or] at h1
    exact ⟨h1.1, h1.2.1, h1.2.2, h2⟩
  · rw [hG]
    refine ⟨tokenAt pos ++ ((pos.drop (tokenAt pos).length).takeWhile isDelimeter ++
      tokenAt ((pos.drop (tokenAt pos).length).dropWhile isDelimeter)), ?_, ?_⟩
    · show pos = _ ++ (_ ++ List.takeWhile isTokenChar _) ++ List.dropWhile isTokenChar _
      rw [List.append_assoc, List.append_assoc, List.takeWhile_append_dropWhile,
        List.takeWhile_append_dropWhile, drop_tokenAt]
      exact (List.takeWhile_append_dropWhile isTokenChar pos).symm
    · intro hmem
      rcases List.mem_append.1 hmem with h1 | h1
      · exact tokenAt_no_NUL _ h1
      · rcases List.mem_append.1 h1 with h2 | h2
        · exact NUL_not_mem_takeWhile_isDelimeter _ h2
        · exact tokenAt_no_NUL _ h2
  · rw [hG]
    exact deref_dropWhile_isTokenChar _


/-- Witness of C6 on the text `MODE d3d11 -w`. -/
theorem GetArgument_returns_next_token_witness :
    eqNoCase (tokenAt "MODE d3d11 -w".toList) (text "mode".toList) ∧
    GetArgument "MODE d3d11 -w".toList "mode".toList = ("d3d11".toList, " -w".toList) :=
  ⟨by decide,
   (GetArgument_returns_next_token "MODE d3d11 -w".toList "mode".toList (by decide)).1.trans
     (by decide)⟩

/-- C7. `GetArgument` does not match option names exactly: the shorter token `w` is taken
for `width` and the empty token for `mode`; in both cases the value `640` is returned and
`pos` is moved to the end of the text instead of being left unchanged. -/
theorem GetArgument_accepts_shorter_token :
    GetArgument "w 640".toList "width".toList = ("640".toList, []) ∧
    GetArgument " 640".toList "mode".toList = ("640".toList, []) ∧
    tokenAt "w 640".toList = "w".toList ∧ ¬ eqNoCase "w".toList "width".toList ∧
    tokenAt " 640".toList = [] := by
  decide

/-! ## `SampleApp::ProcessCommandLine`: option values -/

/-- C2. The `-mode` branch accepts values that are none of `D3D11`, `D3D12`, `GL`, `VK`:
with every backend compiled in, `D3D` and `d` select D3D11, `g` selects OpenGL and `v`
selects Vulkan, and no error is raised. -/
theorem ProcessCommandLine_mode_accepts_prefix {Double : Type} (pos : CStr)
    (app : SampleApp Double) :
    ProcessCommandLine_mode allBackends "D3D".toList pos app =
      .ok { app with m_DeviceType := DeviceType.D3D11 } ∧
    ProcessCommandLine_mode allBackends "d".toList pos app =
      .ok { app with m_DeviceType := DeviceType.D3D11 } ∧
    ProcessCommandLine_mode allBackends "g".toList pos app =
      .ok { app with m_DeviceType := DeviceType.OpenGL } ∧
    ProcessCommandLine_mode allBackends "v".toList pos app =
      .ok { app with m_DeviceType := DeviceType.Vulkan } ∧
    ¬ eqNoCase "D3D".toList "D3D11".toList ∧ ¬ eqNoCase "D3D".toList "D3D12".toList ∧
    ¬ eqNoCase "D3D".toList "GL".toList ∧ ¬ eqNoCase "D3D".toList "VK".toList := by
  refine ⟨?_, ?_, ?_, ?_, by decide, by decide, by decide, by decide⟩
  · unfold ProcessCommandLine_mode
    rw [if_pos (by decide)]; rfl
  · unfold ProcessCommandLine_mode
    rw [if_pos (by decide)]; rfl
  · unfold ProcessCommandLine_mode
    rw [if_neg (by decide), if_neg (by decide), if_pos (by decide)]; rfl
  · unfold ProcessCommandLine_mode
    rw [if_neg (by decide), if_neg (by decide), if_neg (by decide), if_pos (by decide)]; rfl

/-- C8. The `-capture_format` branch takes the value `p`, which is none of `jpeg`, `jpg`
and `png`, for `png`, and the value `j` for `jpeg`: the file format is overwritten and
nothing is reported. -/
theorem ProcessCommandLine_capture_format_accepts_prefix {Double : Type}
    (app : SampleApp Double) :
    ProcessCommandLine_capture_format "p".toList app =
      { app with m_ScreenCaptureInfo :=
          { app.m_ScreenCaptureInfo with FileFormat := EImageFileFormat.png } } ∧
    ProcessCommandLine_capture_format "j".toList app =
      { app with m_ScreenCaptureInfo :=
          { app.m_ScreenCaptureInfo with FileFormat := EImageFileFormat.jpeg } } ∧
    ¬ eqNoCase "p".toList "jpeg".toList ∧ ¬ eqNoCase "p".toList "jpg".toList ∧
    ¬ eqNoCase "p".toList "png".toList := by
  refine ⟨?_, ?_, by decide, by decide, by decide⟩
  · unfold ProcessCommandLine_capture_format
    rw [if_neg (by decide), if_pos (by decide)]
  · unfold ProcessCommandLine_capture_format
    rw [if_pos (by decide)]

/-! ## Capability checks -/

/-- C4. `Initialize` of the tessellation tutorial throws `Hardware tessellation is not
supported` exactly when `bTessellationSupported` is false, and `Initialize` of the compute
tutorial throws `Compute shaders are required to run this tutorial` exactly when
`bComputeShadersSupported` is false; nothing else is thrown, and when it throws the sample
state is the one it started from, otherwise all the initialisation steps have run in
order. -/
theorem Initialize_fails_fast {σ : Type} (f1 f2 f3 f4 f5 : σ → σ) (deviceCaps : DeviceCaps)
    (sample : σ) :
    ((Tutorial08_Tessellation.Initialize f1 f2 f3 deviceCaps sample).2 =
        some "Hardware tessellation is not supported" ↔
      deviceCaps.bTessellationSupported = false) ∧
    ((Tutorial08_Tessellation.Initialize f1 f2 f3 deviceCaps sample).2 = none ↔
      deviceCaps.bTessellationSupported = true) ∧
    (Tutorial08_Tessellation.Initialize f1 f2 f3 deviceCaps sample).1 =
      (if deviceCaps.bTessellationSupported then f3 (f2 (f1 sample)) else sample) ∧
    ((Tutorial14_ComputeShader.Initialize f1 f2 f3 f4 f5 deviceCaps sample).2 =
        some "Compute shaders are required to run this tutorial" ↔
      deviceCaps.bComputeShadersSupported = false) ∧
    ((Tutorial14_ComputeShader.Initialize f1 f2 f3 f4 f5 deviceCaps sample).2 = none ↔
      deviceCaps.bComputeShadersSupported = true) ∧
    (Tutorial14_ComputeShader.Initialize f1 f2 f3 f4 f5 deviceCaps sample).1 =
      (if deviceCaps.bComputeShadersSupported then f5 (f4 (f3 (f2 (f1 sample))))
        else sample) := by
  unfold Tutorial08_Tessellation.Initialize Tutorial14_ComputeShader.Initialize
  cases deviceCaps.bTessellationSupported <;> cases deviceCaps.bComputeShadersSupported <;>
    simp

/-! ## Display-mode labels -/

/-- C9. The array `ScalingModeStr` has two entries, not three: the label of a mode with
unspecified scaling ends in ` Centered`, that of a centered mode in ` Stretched`, and for a
stretched mode the index 2 is outside the array. -/
theorem ScalingModeStr_misses_entry (RefreshRate : Nat → Nat → String) (w h n d : Nat) :
    ScalingModeStr.length = 2 ∧
    ScalingModeStr[SCALING_MODE.SCALING_MODE_UNSPECIFIED.toInt]? = some " Centered" ∧
    ScalingModeStr[SCALING_MODE.SCALING_MODE_CENTERED.toInt]? = some " Stretched" ∧
    ScalingModeStr[SCALING_MODE.SCALING_MODE_STRETCHED.toInt]? = none ∧
    DisplayModeString RefreshRate ⟨w, h, n, d, SCALING_MODE.SCALING_MODE_UNSPECIFIED⟩ =
      some (toString w ++ "x" ++ toString h ++ "@" ++ RefreshRate n d ++ " Hz" ++
        " Centered") ∧
    DisplayModeString RefreshRate ⟨w, h, n, d, SCALING_MODE.SCALING_MODE_STRETCHED⟩ = none := by
  refine ⟨by decide, by decide, by decide, by decide, ?_, ?_⟩
  · rfl
  · rfl

/-! ## `MapTexture` -/

/-- C10. `MapTexture` measures texture 2, not the texture it maps: with a 512 x 512 texture
at index 2 and a 256 x 256 texture at index 3, `MapTexture(3, true)` writes a 512 x 512
pattern into texture 3, and `MapTexture(3, false)` with draws inside their ranges maps the
box from 300 to 428, outside texture 3. -/
theorem MapTexture_measures_texture_2 :
    MapTexture (fun i => if i = 2 then ⟨512, 512⟩ else ⟨256, 256⟩) ⟨2, 2, 0, 0⟩ 3 true =
      ⟨3, none, 512, 512⟩ ∧
    ¬ (MapTexture (fun i => if i = 2 then ⟨512, 512⟩ else ⟨256, 256⟩) ⟨2, 2, 0, 0⟩ 3
        true).within ⟨256, 256⟩ ∧
    MapDraws.inRange 128 (fun i => if i = 2 then ⟨512, 512⟩ else ⟨256, 256⟩)
      ⟨128, 128, 300, 300⟩ ∧
    MapTexture (fun i => if i = 2 then ⟨512, 512⟩ else ⟨256, 256⟩) ⟨128, 128, 300, 300⟩ 3
      false = ⟨3, some ⟨300, 428, 300, 428⟩, 128, 128⟩ ∧
    ¬ (MapTexture (fun i => if i = 2 then ⟨512, 512⟩ else ⟨256, 256⟩) ⟨128, 128, 300, 300⟩
        3 false).within ⟨256, 256⟩ := by
  refine ⟨by decide, ?_, ?_, by decide, ?_⟩
  · simp [MapTexture, MapRequest.within, Uint32]
  · simp [MapDraws.inRange, Uint32]
  · simp [MapTexture, MapRequest.within, Uint32]

/-! ## `Tutorial00App::ProcessCommandLine` -/

theorem stricmp_literal (pos lit : CStr) (hlit : text lit = lit) :
    stricmp pos lit = 0 ↔ eqNoCase (text pos) lit := by
  rw [stricmp_eq_zero, hlit]; rfl

theorem eqNoCase_unique {t a b : List Char} (ha : eqNoCase t a) (hb : eqNoCase t b) :
    a.map tolower = b.map tolower := by
  unfold eqNoCase at ha hb
  rw [← ha, ← hb]

theorem GetArgument_pos_length (pos ArgName : CStr) :
    (GetArgument pos ArgName).2.length ≤ pos.length := by
  unfold GetArgument
  simp only []
  split
  · rw [readArg_eq, skipDelimeters_eq]
    have h1 := (List.dropWhile_suffix (l := (pos.drop (scanArgNameLen pos)).dropWhile isDelimeter)
      isTokenChar).length_le
    have h2 := (List.dropWhile_suffix (l := pos.drop (scanArgNameLen pos)) isDelimeter).length_le
    have h3 : (pos.drop (scanArgNameLen pos)).length ≤ pos.length := by
      rw [List.length_drop]; omega
    simp only at h1 ⊢
    omega
  · exact Nat.le_refl _

theorem ProcessCommandLine_option_pos_length {Double : Type} (cfg : BuildConfig)
    (atof : CStr → Double) (pos : CStr) (app : SampleApp Double) (pos1 : CStr)
    (app1 : SampleApp Double)
    (h : ProcessCommandLine_option cfg atof pos app = .ok (pos1, app1)) :
    pos1.length ≤ pos.length := by
  unfold ProcessCommandLine_option at h
  simp only [] at h
  have g1 := GetArgument_pos_length pos "mode".toList
  with_reducible generalize hq1 : (GetArgument pos "mode".toList) = q1 at h g1
  have g2 := GetArgument_pos_length (q1.2) "capture_path".toList
  with_reducible generalize hq2 : (GetArgument (q1.2) "capture_path".toList) = q2 at h g2
  have g3 := GetArgument_pos_length (q2.2) "capture_name".toList
  with_reducible generalize hq3 : (GetArgument (q2.2) "capture_name".toList) = q3 at h g3
  have g4 := GetArgument_pos_length (q3.2) "capture_fps".toList
  with_reducible generalize hq4 : (GetArgument (q3.2) "capture_fps".toList) = q4 at h g4
  have g5 := GetArgument_pos_length (q4.2) "capture_frames".toList
  with_reducible generalize hq5 : (GetArgument (q4.2) "capture_frames".toList) = q5 at h g5
  have g6 := GetArgument_pos_length (q5.2) "capture_format".toList
  with_reducible generalize hq6 : (GetArgument (q5.2) "capture_format".toList) = q6 at h g6
  have g7 := GetArgument_pos_length (q6.2) "capture_quality".toList
  with_reducible generalize hq7 : (GetArgument (q6.2) "capture_quality".toList) = q7 at h g7
  have g8 := GetArgument_pos_length (q7.2) "capture_alpha".toList
  with_reducible generalize hq8 : (GetArgument (q7.2) "capture_alpha".toList) = q8 at h g8
  have g9 := GetArgument_pos_length (q8.2) "width".toList
  with_reducible generalize hq9 : (GetArgument (q8.2) "width".toList) = q9 at h g9
  have g10 := GetArgument_pos_length (q9.2) "height".toList
  with_reducible generalize hq10 : (GetArgument (q9.2) "height".toList) = q10 at h g10
  have g11 := GetArgument_pos_length (q10.2) "validation".toList
  with_reducible generalize hq11 : (GetArgument (q10.2) "validation".toList) = q11 at h g11
  clear hq1 hq2 hq3 hq4 hq5 hq6 hq7 hq8 hq9 hq10 hq11
  by_cases c1 : q1.1 ≠ []
  · rw [if_pos c1] at h
    cases hm : ProcessCommandLine_mode cfg q1.1 q1.2 app with
    | error e => rw [hm] at h; cases h
    | ok a =>
      rw [hm] at h
      simp only [Except.ok.injEq, Prod.mk.injEq] at h
      rw [← h.1]; exact g1
  rw [if_neg c1] at h
  by_cases c2 : q2.1 ≠ []
  · rw [if_pos c2] at h
    simp only [Except.ok.injEq, Prod.mk.injEq] at h
    rw [← h.1]; omega
  rw [if_neg c2] at h
  by_cases c3 : q3.1 ≠ []
  · rw [if_pos c3] at h
    simp only [Except.ok.injEq, Prod.mk.injEq] at h
    rw [← h.1]; omega
  rw [if_neg c3] at h
  by_cases c4 : q4.1 ≠ []
  · rw [if_pos c4] at h
    simp only [Except.ok.injEq, Prod.mk.injEq] at h
    rw [← h.1]; omega
  rw [if_neg c4] at h
  by_cases c5 : q5.1 ≠ []
  · rw [if_pos c5] at h
    simp only [Except.ok.injEq, Prod.mk.injEq] at h
    rw [← h.1]; omega
  rw [if_neg c5] at h
  by_cases c6 : q6.1 ≠ []
  · rw [if_pos c6] at h
    simp only [Except.ok.injEq, Prod.mk.injEq] at h
    rw [← h.1]; omega
  rw [if_neg c6] at h
  by_cases c7 : q7.1 ≠ []
  · rw [if_pos c7] at h
    simp only [Except.ok.injEq, Prod.mk.injEq] at h
    rw [← h.1]; omega
  rw [if_neg c7] at h
  by_cases c8 : q8.1 ≠ []
  · rw [if_pos c8] at h
    simp only [Except.ok.injEq, Prod.mk.injEq] at h
    rw [← h.1]; omega
  rw [if_neg c8] at h
  by_cases c9 : q9.1 ≠ []
  · rw [if_pos c9] at h
    simp only [Except.ok.injEq, Prod.mk.injEq] at h
    rw [← h.1]; omega
  rw [if_neg c9] at h
  by_cases c10 : q10.1 ≠ []
  · rw [if_pos c10] at h
    simp only [Except.ok.injEq, Prod.mk.injEq] at h
    rw [← h.1]; omega
  rw [if_neg c10] at h
  by_cases c11 : q11.1 ≠ []
  · rw [if_pos c11] at h
    simp only [Except.ok.injEq, Prod.mk.injEq] at h
    rw [← h.1]; omega
  rw [if_neg c11] at h
  simp only [Except.ok.injEq, Prod.mk.injEq] at h
  rw [← h.1]; omega

theorem strchr_some (s : CStr) (c : Char) (hc : c ≠ NUL) (p : CStr)
    (h : strchr s c = some p) : p ≠ [] ∧ p.length ≤ s.length := by
  induction s with
  | nil => simp [strchr, hc] at h
  | cons a s ih =>
    unfold strchr at h
    split at h
    · cases h; simp
    · split at h
      · cases h
      · have := ih h
        exact ⟨this.1, by simp only [List.length_cons]; omega⟩

theorem ProcessCommandLine_loop_total {Double : Type} (cfg : BuildConfig)
    (atof : CStr → Double) (fuel : Nat) :
    ∀ (pos : Option CStr) (app : SampleApp Double),
      (∀ p, pos = some p → p ≠ [] ∧ p.length ≤ fuel) →
      ∃ res, ProcessCommandLine_loop cfg atof fuel pos app = some res := by
  induction fuel with
  | zero =>
    intro pos app h
    cases pos with
    | none => exact ⟨_, rfl⟩
    | some p =>
      have := h p rfl
      exact absurd (List.length_eq_zero.1 (Nat.le_zero.1 this.2)) this.1
  | succ fuel ih =>
    intro pos app h
    cases pos with
    | none => exact ⟨_, rfl⟩
    | some p =>
      have hp := h p rfl
      unfold ProcessCommandLine_loop
      cases hopt : ProcessCommandLine_option cfg atof p.tail app with
      | error e => exact ⟨_, rfl⟩
      | ok r =>
        obtain ⟨pos1, app1⟩ := r
        have hlen := ProcessCommandLine_option_pos_length cfg atof p.tail app pos1 app1 hopt
        simp only
        apply ih
        intro q hq
        have := strchr_some pos1 '-' (by decide) q hq
        refine ⟨this.1, ?_⟩
        have ht : p.tail.length = p.length - 1 := List.length_tail p
        have hp0 : 0 < p.length := List.length_pos.2 hp.1
        omega

/-! ## The default device type -/

theorem ProcessCommandLine_title_DeviceType {Double : Type} (cfg : BuildConfig)
    (app : SampleApp Double) :
    (ProcessCommandLine_title cfg app).m_DeviceType = app.m_DeviceType := by
  unfold ProcessCommandLine_title
  simp only []
  split <;> (try split) <;> rfl

theorem ProcessCommandLine_default_DeviceType {Double : Type} (cfg : BuildConfig)
    (app : SampleApp Double) :
    (ProcessCommandLine_default cfg app).m_DeviceType =
      (defaultDeviceType cfg).getD app.m_DeviceType := by
  obtain ⟨b1, b2, b3, b4, b5⟩ := cfg
  cases b1 <;> cases b2 <;> cases b3 <;> cases b4 <;> cases b5 <;>
    simp [ProcessCommandLine_default, defaultDeviceType, backendPriority, BuildConfig.supports]

theorem defaultDeviceType_ne_Undefined (cfg : BuildConfig) (d : DeviceType)
    (h : defaultDeviceType cfg = some d) : d ≠ DeviceType.Undefined := by
  intro hd
  subst hd
  have := List.find?_some h
  simp [BuildConfig.supports] at this

theorem defaultDeviceType_isSome (cfg : BuildConfig) :
    (defaultDeviceType cfg).isSome = true ↔
      (cfg.D3D11_SUPPORTED = true ∨ cfg.D3D12_SUPPORTED = true ∨ cfg.GL_SUPPORTED = true ∨
        cfg.GLES_SUPPORTED = true ∨ cfg.VULKAN_SUPPORTED = true) := by
  obtain ⟨b1, b2, b3, b4, b5⟩ := cfg
  cases b1 <;> cases b2 <;> cases b3 <;> cases b4 <;> cases b5 <;>
    simp [defaultDeviceType, backendPriority, BuildConfig.supports]

theorem ProcessCommandLine_finish_DeviceType {Double : Type} (cfg : BuildConfig)
    (sel : SampleApp Double → SampleApp Double) (r : SampleApp Double) :
    (ProcessCommandLine_finish cfg sel r).m_DeviceType =
      (if r.m_DeviceType ≠ DeviceType.Undefined then r.m_DeviceType
       else if (sel r).m_DeviceType ≠ DeviceType.Undefined then (sel r).m_DeviceType
       else (defaultDeviceType cfg).getD DeviceType.Undefined) := by
  unfold ProcessCommandLine_finish
  simp only []
  rw [ProcessCommandLine_title_DeviceType]
  by_cases h1 : r.m_DeviceType = DeviceType.Undefined
  · rw [if_pos h1, if_neg (not_not.2 h1)]
    by_cases h2 : (sel r).m_DeviceType = DeviceType.Undefined
    · rw [if_pos h2, if_neg (not_not.2 h2), ProcessCommandLine_default_DeviceType, h2]
    · rw [if_neg h2, if_pos h2]
  · rw [if_neg h1, if_pos h1]

theorem ProcessCommandLine_mode_DeviceType {Double : Type} (cfg : BuildConfig)
    (Arg pos : CStr) (app app1 : SampleApp Double)
    (h : ProcessCommandLine_mode cfg Arg pos app = .ok app1) :
    app1.m_DeviceType ≠ DeviceType.Undefined := by
  unfold ProcessCommandLine_mode at h
  repeat' (split at h)
  all_goals first
    | (cases h; done)
    | (simp only [Except.ok.injEq] at h; rw [← h]; simp)

/-- C5. Without a device type from `-mode` or from `SelectDeviceType`, the backend is
the first one compiled in among D3D12, Vulkan, D3D11, OpenGL. For `SampleApp` the loop
over the command line always ends, and the device type after `ProcessCommandLine` is the
one left by the loop if that is defined (as it is after a `-mode` option), else the one
set by `SelectDeviceType` if that is defined, else the default; for the tutorials a
command line without `-mode ` gives the default. The default is never `Undefined`, and
there is one as soon as a backend is compiled in. -/
theorem default_device_type_priority {Double : Type} (cfg : BuildConfig)
    (atof : CStr → Double) (sel : SampleApp Double → SampleApp Double) (CmdLine : CStr)
    (app : SampleApp Double) (tapp : Tutorial00App) :
    (∃ res, ProcessCommandLine_loop cfg atof (CmdLine.length + 1) (strchr CmdLine '-') app =
        some res ∧
      match res with
      | .error e => ProcessCommandLine cfg atof sel CmdLine app = some (.error e)
      | .ok r =>
        ProcessCommandLine cfg atof sel CmdLine app =
          some (.ok (ProcessCommandLine_finish cfg sel r)) ∧
        (ProcessCommandLine_finish cfg sel r).m_DeviceType =
          (if r.m_DeviceType ≠ DeviceType.Undefined then r.m_DeviceType
           else if (sel r).m_DeviceType ≠ DeviceType.Undefined then (sel r).m_DeviceType
           else (defaultDeviceType cfg).getD DeviceType.Undefined) ∧
        ((defaultDeviceType cfg).isSome = true →
          (ProcessCommandLine_finish cfg sel r).m_DeviceType ≠ DeviceType.Undefined)) ∧
    (∀ (Arg pos : CStr) (a b : SampleApp Double),
      ProcessCommandLine_mode cfg Arg pos a = .ok b →
        b.m_DeviceType ≠ DeviceType.Undefined ∧
        (ProcessCommandLine_finish cfg sel b).m_DeviceType = b.m_DeviceType) ∧
    (strstr CmdLine "-mode ".toList = none →
      Tutorial00App.ProcessCommandLine cfg CmdLine tapp =
        (true, { tapp with
          m_DeviceType := (defaultDeviceType cfg.tutorial).getD tapp.m_DeviceType })) ∧
    (defaultDeviceType cfg =
      if cfg.D3D12_SUPPORTED then some DeviceType.D3D12
      else if cfg.VULKAN_SUPPORTED then some DeviceType.Vulkan
      else if cfg.D3D11_SUPPORTED then some DeviceType.D3D11
      else if cfg.GL_SUPPORTED || cfg.GLES_SUPPORTED then some DeviceType.OpenGL
      else none) ∧
    ((defaultDeviceType cfg).isSome = true ↔
      (cfg.D3D11_SUPPORTED = true ∨ cfg.D3D12_SUPPORTED = true ∨ cfg.GL_SUPPORTED = true ∨
        cfg.GLES_SUPPORTED = true ∨ cfg.VULKAN_SUPPORTED = true)) ∧
    (∀ c : BuildConfig, ∀ d, defaultDeviceType c = some d → d ≠ DeviceType.Undefined) := by
  refine ⟨?_, ?_, ?_, ?_, defaultDeviceType_isSome cfg, defaultDeviceType_ne_Undefined⟩
  · obtain ⟨res, hres⟩ := ProcessCommandLine_loop_total cfg atof (CmdLine.length + 1)
      (strchr CmdLine '-') app (fun p hp => by
        have := strchr_some CmdLine '-' (by decide) p hp
        exact ⟨this.1, by omega⟩)
    refine ⟨res, hres, ?_⟩
    cases res with
    | error e => simp only [ProcessCommandLine, hres]
    | ok r =>
      refine ⟨by simp only [ProcessCommandLine, hres],
        ProcessCommandLine_finish_DeviceType cfg sel r, ?_⟩
      intro hsome
      rw [ProcessCommandLine_finish_DeviceType]
      by_cases h1 : r.m_DeviceType = DeviceType.Undefined
      · rw [if_neg (not_not.2 h1)]
        by_cases h2 : (sel r).m_DeviceType = DeviceType.Undefined
        · rw [if_neg (not_not.2 h2)]
          obtain ⟨d, hd⟩ := Option.isSome_iff_exists.1 hsome
          rw [hd]
          exact defaultDeviceType_ne_Undefined cfg d hd
        · rw [if_pos h2]; exact h2
      · rw [if_pos h1]; exact h1
  · intro Arg pos a b h
    have hb := ProcessCommandLine_mode_DeviceType cfg Arg pos a b h
    exact ⟨hb, by rw [ProcessCommandLine_finish_DeviceType, if_pos hb]⟩
  · intro hs
    unfold Tutorial00App.ProcessCommandLine
    simp only [hs]
    obtain ⟨b1, b2, b3, b4, b5⟩ := cfg
    cases b1 <;> cases b2 <;> cases b3 <;> cases b5 <;>
      simp [defaultDeviceType, backendPriority, BuildConfig.supports, BuildConfig.tutorial]
  · obtain ⟨b1, b2, b3, b4, b5⟩ := cfg
    cases b1 <;> cases b2 <;> cases b3 <;> cases b4 <;> cases b5 <;>
      simp [defaultDeviceType, backendPriority, BuildConfig.supports]

/-! ## Command lines made of `-name value` pairs -/

theorem tokenAt_of_deref {r : CStr} (hr : isTokenChar (deref r) = false) :
    tokenAt r = [] ∧ r.dropWhile isTokenChar = r := by
  cases r with
  | nil => exact ⟨rfl, rfl⟩
  | cons c r =>
    simp only [deref] at hr
    simp [tokenAt, List.takeWhile_cons, List.dropWhile_cons, hr]

theorem tokenAt_append (t r : CStr) (ht : ∀ c ∈ t, isTokenChar c = true)
    (hr : isTokenChar (deref r) = false) :
    tokenAt (t ++ r) = t ∧ (t ++ r).dropWhile isTokenChar = r := by
  induction t with
  | nil => simpa using tokenAt_of_deref hr
  | cons c t ih =>
    have hc := ht c (List.mem_cons_self _ _)
    have := ih (fun x hx => ht x (List.mem_cons_of_mem _ hx))
    simp only [tokenAt, List.cons_append, List.takeWhile_cons, List.dropWhile_cons, hc,
      if_true]
    exact ⟨congrArg (c :: ·) this.1, this.2⟩

/-- `GetArgument` at a token `t` followed by a space, a value `v` and the rest `r`. -/
theorem GetArgument_option (t v r ArgName : CStr) (ht : ∀ c ∈ t, isTokenChar c = true)
    (hv : ∀ c ∈ v, isTokenChar c = true) (hv0 : v ≠ [])
    (hr : isTokenChar (deref r) = false) :
    GetArgument (t ++ ' ' :: (v ++ r)) ArgName =
      if t.map tolower = ((text ArgName).take t.length).map tolower then (v, r)
      else ([], t ++ ' ' :: (v ++ r)) := by
  have h1 := tokenAt_append t (' ' :: (v ++ r)) ht rfl
  have h2 := tokenAt_append v r hv hr
  split
  · rename_i h
    rw [GetArgument_of_match _ _ (by rw [h1.1]; exact h), h1.2]
    have h3 : (' ' :: (v ++ r)).dropWhile isDelimeter = v ++ r := by
      rw [List.dropWhile_cons, if_pos (by decide)]
      cases v with
      | nil => exact absurd rfl hv0
      | cons c v =>
        have hc := hv c (List.mem_cons_self _ _)
        have hd : isDelimeter c = false := by
          simp only [isTokenChar, decide_eq_true_eq] at hc
          simpa using hc.2
        simp [List.dropWhile_cons, hd]
    rw [h3, h2.1, h2.2]
  · rename_i h
    exact GetArgument_of_no_match _ _ (by rw [h1.1]; exact h)

theorem text_of_no_NUL (v : CStr) (h : NUL ∉ v) : text v = v := by
  unfold text
  rw [List.takeWhile_eq_self_iff]
  intro c hc
  simp only [ne_eq, decide_eq_true_eq]
  intro e; exact h (e ▸ hc)

/-- The comparison of a value with a literal, as `ProcessCommandLine` makes it. -/
theorem StrCmpNoCase_value (v lit : CStr) (h : NUL ∉ v) :
    StrCmpNoCase v lit v.length = 0 ↔
      v.map tolower = ((text lit).take v.length).map tolower := by
  rw [StrCmpNoCase_eq_zero, text_of_no_NUL v h, List.take_length]

theorem StrCmpNoCase_of_eqNoCase (v L lit : CStr) (h : NUL ∉ v) (hL : eqNoCase v L) :
    StrCmpNoCase v lit v.length = 0 ↔
      L.map tolower = ((text lit).take L.length).map tolower := by
  have hlen : v.length = L.length := by
    have := congrArg List.length hL
    simpa using this
  rw [StrCmpNoCase_value v lit h, hlen]
  unfold eqNoCase at hL
  rw [hL]

theorem atoiDigits_eq (v : CStr) (hd : ∀ c ∈ v, isdigit c = true) (acc : Int) :
    atoiDigits v acc = v.foldl (fun acc c => acc * 10 + ((c.toNat : Int) - 48)) acc := by
  induction v generalizing acc with
  | nil => rfl
  | cons c v ih =>
    have hc := hd c (List.mem_cons_self _ _)
    simp only [atoiDigits, hc, if_true, List.foldl_cons]
    exact ih (fun x hx => hd x (List.mem_cons_of_mem _ hx)) _

theorem atoi_eq_decimalValue (v : CStr) (hd : ∀ c ∈ v, isdigit c = true) :
    atoi v = decimalValue v := by
  cases v with
  | nil => rfl
  | cons c v =>
    have hc := hd c (List.mem_cons_self _ _)
    have hs : isspace c = false := by
      simp only [isdigit, decide_eq_true_eq] at hc
      simp only [isspace, decide_eq_false_iff_not]
      omega
    have hm : c ≠ '-' := by
      intro e; subst e; exact absurd hc (by decide)
    have hp : c ≠ '+' := by
      intro e; subst e; exact absurd hc (by decide)
    unfold atoi
    rw [List.dropWhile_cons, if_neg (by simp [hs])]
    split
    · rename_i heq; cases heq; exact absurd rfl hm
    · rename_i heq; cases heq; exact absurd rfl hp
    · exact atoiDigits_eq _ hd 0

theorem no_NUL_of_tokenChars (v : CStr) (hv : ∀ c ∈ v, isTokenChar c = true ∧ c ≠ '-') :
    NUL ∉ v := by
  intro h
  exact absurd (hv NUL h).1 (by decide)

theorem cmp_true (v L lit : CStr) (h : NUL ∉ v) (hL : eqNoCase v L)
    (hdec : L.map tolower = ((text lit).take L.length).map tolower) :
    StrCmpNoCase v lit v.length = 0 :=
  (StrCmpNoCase_of_eqNoCase v L lit h hL).2 hdec

theorem cmp_false (v L lit : CStr) (h : NUL ∉ v) (hL : eqNoCase v L)
    (hdec : ¬ L.map tolower = ((text lit).take L.length).map tolower) :
    ¬ StrCmpNoCase v lit v.length = 0 :=
  fun h2 => hdec ((StrCmpNoCase_of_eqNoCase v L lit h hL).1 h2)

theorem eqNoCase_ne {v a b : List Char} (ha : eqNoCase v a)
    (hab : ¬ a.map tolower = b.map tolower) : ¬ eqNoCase v b :=
  fun hb => hab (eqNoCase_unique ha hb)

theorem ne_of_eqNoCase {v a b : List Char} (ha : eqNoCase v a)
    (hab : ¬ a.map tolower = b.map tolower) : v ≠ b := by
  intro e
  subst e
  exact hab ha.symm

/-- The `-mode` branch on a valid value. -/
theorem ProcessCommandLine_mode_valid {Double : Type} (cfg : BuildConfig) (v pos : CStr)
    (app : SampleApp Double) (hnul : NUL ∉ v)
    (hvalid : cfg.supports (deviceTypeOfValue v) = true) :
    ProcessCommandLine_mode cfg v pos app =
      .ok { app with m_DeviceType := deviceTypeOfValue v } := by
  unfold deviceTypeOfValue at hvalid ⊢
  unfold ProcessCommandLine_mode
  by_cases h1 : eqNoCase v "D3D11".toList
  · rw [if_pos h1] at hvalid ⊢
    rw [if_pos (cmp_true v _ _ hnul h1 (by decide))]
    simp only [BuildConfig.supports] at hvalid
    rw [if_pos hvalid]
  rw [if_neg h1] at hvalid ⊢
  by_cases h2 : eqNoCase v "D3D12".toList
  · rw [if_pos h2] at hvalid ⊢
    rw [if_neg (cmp_false v _ _ hnul h2 (by decide)),
      if_pos (cmp_true v _ _ hnul h2 (by decide))]
    simp only [BuildConfig.supports] at hvalid
    rw [if_pos hvalid]
  rw [if_neg h2] at hvalid ⊢
  by_cases h3 : eqNoCase v "GL".toList
  · rw [if_pos h3] at hvalid ⊢
    rw [if_neg (cmp_false v _ _ hnul h3 (by decide)),
      if_neg (cmp_false v _ _ hnul h3 (by decide)),
      if_pos (cmp_true v _ _ hnul h3 (by decide))]
    simp only [BuildConfig.supports] at hvalid
    rw [if_pos hvalid]
  rw [if_neg h3] at hvalid ⊢
  by_cases h4 : eqNoCase v "VK".toList
  · rw [if_pos h4] at hvalid ⊢
    rw [if_neg (cmp_false v _ _ hnul h4 (by decide)),
      if_neg (cmp_false v _ _ hnul h4 (by decide)),
      if_neg (cmp_false v _ _ hnul h4 (by decide)),
      if_pos (cmp_true v _ _ hnul h4 (by decide))]
    simp only [BuildConfig.supports] at hvalid
    rw [if_pos hvalid]
  rw [if_neg h4] at hvalid
  simp [BuildConfig.supports] at hvalid

/-- The `-capture_format` branch on a valid value. -/
theorem ProcessCommandLine_capture_format_valid {Double : Type} (v : CStr)
    (app : SampleApp Double) (hnul : NUL ∉ v)
    (hvalid : eqNoCase v "jpeg".toList ∨ eqNoCase v "jpg".toList ∨ eqNoCase v "png".toList) :
    ProcessCommandLine_capture_format v app =
      { app with m_ScreenCaptureInfo :=
          { app.m_ScreenCaptureInfo with FileFormat := fileFormatOfValue v } } := by
  unfold ProcessCommandLine_capture_format fileFormatOfValue
  rcases hvalid with h | h | h
  · rw [if_pos (Or.inl (cmp_true v _ _ hnul h (by decide))), if_pos (Or.inl h)]
  · rw [if_pos (Or.inr (cmp_true v _ _ hnul h (by decide))), if_pos (Or.inr h)]
  · rw [if_neg (not_or.2 ⟨cmp_false v _ _ hnul h (by decide), cmp_false v _ _ hnul h (by decide)⟩),
      if_pos (cmp_true v _ _ hnul h (by decide)),
      if_neg (not_or.2 ⟨eqNoCase_ne h (by decide), eqNoCase_ne h (by decide)⟩)]

/-- The `-capture_alpha` value on a valid value. -/
theorem capture_alpha_valid (v : CStr) (hnul : NUL ∉ v)
    (hvalid : eqNoCase v "true".toList ∨ eqNoCase v "false".toList ∨ v = "1".toList ∨
      v = "0".toList) :
    (decide (StrCmpNoCase v "true".toList v.length = 0) || decide (v = "1".toList)) =
      boolOfValue v := by
  unfold boolOfValue
  rcases hvalid with h | h | h | h
  · have a := cmp_true v "true".toList "true".toList hnul h (by decide)
    simp only [a, h, decide_True, Bool.true_or, true_or]
  · have a := cmp_false v _ _ hnul h (show ¬ _ = ((text "true".toList).take _).map tolower by decide)
    have b : ¬ eqNoCase v "true".toList := eqNoCase_ne h (by decide)
    have c : v ≠ "1".toList := ne_of_eqNoCase h (by decide)
    simp only [a, b, c, decide_False, Bool.or_self, or_self]
  · subst h; decide
  · subst h; decide

/-- The `-validation` branch on a valid value. -/
theorem ProcessCommandLine_validation_valid {Double : Type} (v : CStr)
    (app : SampleApp Double) (hnul : NUL ∉ v)
    (hvalid : eqNoCase v "true".toList ∨ eqNoCase v "false".toList ∨ v = "1".toList ∨
      v = "0".toList ∨ eqNoCase v "enable".toList ∨ eqNoCase v "disable".toList) :
    ProcessCommandLine_validation v app =
      { app with m_ValidationMode := validationOfValue v } := by
  unfold ProcessCommandLine_validation validationOfValue
  rcases hvalid with h | h | h | h | h | h
  · rw [if_pos (Or.inl (cmp_true v _ _ hnul h (by decide))), if_pos (Or.inl h)]
  · rw [if_neg (not_or.2 ⟨cmp_false v _ _ hnul h (by decide),
        not_or.2 ⟨cmp_false v _ _ hnul h (by decide), cmp_false v _ _ hnul h (by decide)⟩⟩),
      if_neg (not_or.2 ⟨eqNoCase_ne h (by decide),
        not_or.2 ⟨ne_of_eqNoCase h (by decide), eqNoCase_ne h (by decide)⟩⟩)]
  · subst h
    rw [if_pos (Or.inr (Or.inl (by decide))), if_pos (Or.inr (Or.inl rfl))]
  · subst h
    rw [if_neg (by decide), if_neg (by decide)]
  · rw [if_pos (Or.inr (Or.inr (cmp_true v _ _ hnul h (by decide)))),
      if_pos (Or.inr (Or.inr h))]
  · rw [if_neg (not_or.2 ⟨cmp_false v _ _ hnul h (by decide),
        not_or.2 ⟨cmp_false v _ _ hnul h (by decide), cmp_false v _ _ hnul h (by decide)⟩⟩),
      if_neg (not_or.2 ⟨eqNoCase_ne h (by decide),
        not_or.2 ⟨ne_of_eqNoCase h (by decide), eqNoCase_ne h (by decide)⟩⟩)]

/-- One pass of the loop over a well-formed option written in full: the option sets its
field and the position is left right after the value. -/
theorem ProcessCommandLine_option_sets {Double : Type} (cfg : BuildConfig)
    (atof : CStr → Double) (o : CmdOption) (r : CStr) (app : SampleApp Double)
    (hvalid : o.valid cfg) (hr : isTokenChar (deref r) = false) :
    ProcessCommandLine_option cfg atof (o.name.text ++ ' ' :: (o.value ++ r)) app =
      .ok (r, applyOption atof app o) := by
  obtain ⟨n, v⟩ := o
  obtain ⟨hv0, hv, hval⟩ := hvalid
  have hnul := no_NUL_of_tokenChars v hv
  have hvt : ∀ c ∈ v, isTokenChar c = true := fun c hc => (hv c hc).1
  show ProcessCommandLine_option cfg atof (OptionName.text n ++ ' ' :: (v ++ r)) app =
    .ok (r, applyOption atof app ⟨n, v⟩)
  replace hval : validValue cfg n v := hval
  replace hv0 : ¬ v = [] := hv0
  cases n
  case mode =>
    have G := fun nm => GetArgument_option OptionName.mode.text v r nm (by decide) hvt hv0 hr
    generalize OptionName.mode.text ++ ' ' :: (v ++ r) = pos at G ⊢
    have G1 : GetArgument pos "mode".toList = (v, r) :=
      (G _).trans (if_pos (by decide))
    unfold ProcessCommandLine_option
    simp only [G1, ne_eq, not_true_eq_false, if_false, hv0,
      not_false_eq_true, if_true]
    rw [ProcessCommandLine_mode_valid cfg v r app hnul hval]
    rfl
  case capture_path =>
    have G := fun nm => GetArgument_option OptionName.capture_path.text v r nm (by decide) hvt hv0 hr
    generalize OptionName.capture_path.text ++ ' ' :: (v ++ r) = pos at G ⊢
    have G1 : GetArgument pos "mode".toList = ([], pos) :=
      (G _).trans (if_neg (by decide))
    have G2 : GetArgument pos "capture_path".toList = (v, r) :=
      (G _).trans (if_pos (by decide))
    unfold ProcessCommandLine_option
    simp only [G1, G2, ne_eq, not_true_eq_false, if_false, hv0,
      not_false_eq_true, if_true]
    rfl
  case capture_name =>
    have G := fun nm => GetArgument_option OptionName.capture_name.text v r nm (by decide) hvt hv0 hr
    generalize OptionName.capture_name.text ++ ' ' :: (v ++ r) = pos at G ⊢
    have G1 : GetArgument pos "mode".toList = ([], pos) :=
      (G _).trans (if_neg (by decide))
    have G2 : GetArgument pos "capture_path".toList = ([], pos) :=
      (G _).trans (if_neg (by decide))
    have G3 : GetArgument pos "capture_name".toList = (v, r) :=
      (G _).trans (if_pos (by decide))
    unfold ProcessCommandLine_option
    simp only [G1, G2, G3, ne_eq, not_true_eq_false, if_false, hv0,
      not_false_eq_true, if_true]
    rfl
  case capture_fps =>
    have G := fun nm => GetArgument_option OptionName.capture_fps.text v r nm (by decide) hvt hv0 hr
    generalize OptionName.capture_fps.text ++ ' ' :: (v ++ r) = pos at G ⊢
    have G1 : GetArgument pos "mode".toList = ([], pos) :=
      (G _).trans (if_neg (by decide))
    have G2 : GetArgument pos "capture_path".toList = ([], pos) :=
      (G _).trans (if_neg (by decide))
    have G3 : GetArgument pos "capture_name".toList = ([], pos) :=
      (G _).trans (if_neg (by decide))
    have G4 : GetArgument pos "capture_fps".toList = (v, r) :=
      (G _).trans (if_pos (by decide))
    unfold ProcessCommandLine_option
    simp only [G1, G2, G3, G4, ne_eq, not_true_eq_false, if_false, hv0,
      not_false_eq_true, if_true]
    rfl
  case capture_frames =>
    have G := fun nm => GetArgument_option OptionName.capture_frames.text v r nm (by decide) hvt hv0 hr
    generalize OptionName.capture_frames.text ++ ' ' :: (v ++ r) = pos at G ⊢
    have G1 : GetArgument pos "mode".toList = ([], pos) :=
      (G _).trans (if_neg (by decide))
    have G2 : GetArgument pos "capture_path".toList = ([], pos) :=
      (G _).trans (if_neg (by decide))
    have G3 : GetArgument pos "capture_name".toList = ([], pos) :=
      (G _).trans (if_neg (by decide))
    have G4 : GetArgument pos "capture_fps".toList = ([], pos) :=
      (G _).trans (if_neg (by decide))
    have G5 : GetArgument pos "capture_frames".toList = (v, r) :=
      (G _).trans (if_pos (by decide))
    unfold ProcessCommandLine_option
    simp only [G1, G2, G3, G4, G5, ne_eq, not_true_eq_false, if_false, hv0,
      not_false_eq_true, if_true]
    rw [atoi_eq_decimalValue v hval]
    rfl
  case capture_format =>
    have G := fun nm => GetArgument_option OptionName.capture_format.text v r nm (by decide) hvt hv0 hr
    generalize OptionName.capture_format.text ++ ' ' :: (v ++ r) = pos at G ⊢
    have G1 : GetArgument pos "mode".toList = ([], pos) :=
      (G _).trans (if_neg (by decide))
    have G2 : GetArgument pos "capture_path".toList = ([], pos) :=
      (G _).trans (if_neg (by decide))
    have G3 : GetArgument pos "capture_name".toList = ([], pos) :=
      (G _).trans (if_neg (by decide))
    have G4 : GetArgument pos "capture_fps".toList = ([], pos) :=
      (G _).trans (if_neg (by decide))
    have G5 : GetArgument pos "capture_frames".toList = ([], pos) :=
      (G _).trans (if_neg (by decide))
    have G6 : GetArgument pos "capture_format".toList = (v, r) :=
      (G _).trans (if_pos (by decide))
    unfold ProcessCommandLine_option
    simp only [G1, G2, G3, G4, G5, G6, ne_eq, not_true_eq_false, if_false, hv0,
      not_false_eq_true, if_true]
    rw [ProcessCommandLine_capture_format_valid v app hnul hval]
    rfl
  case capture_quality =>
    have G := fun nm => GetArgument_option OptionName.capture_quality.text v r nm (by decide) hvt hv0 hr
    generalize OptionName.capture_quality.text ++ ' ' :: (v ++ r) = pos at G ⊢
    have G1 : GetArgument pos "mode".toList = ([], pos) :=
      (G _).trans (if_neg (by decide))
    have G2 : GetArgument pos "capture_path".toList = ([], pos) :=
      (G _).trans (if_neg (by decide))
    have G3 : GetArgument pos "capture_name".toList = ([], pos) :=
      (G _).trans (if_neg (by decide))
    have G4 : GetArgument pos "capture_fps".toList = ([], pos) :=
      (G _).trans (if_neg (by decide))
    have G5 : GetArgument pos "capture_frames".toList = ([], pos) :=
      (G _).trans (if_neg (by decide))
    have G6 : GetArgument pos "capture_format".toList = ([], pos) :=
      (G _).trans (if_neg (by decide))
    have G7 : GetArgument pos "capture_quality".toList = (v, r) :=
      (G _).trans (if_pos (by decide))
    unfold ProcessCommandLine_option
    simp only [G1, G2, G3, G4, G5, G6, G7, ne_eq, not_true_eq_false, if_false, hv0,
      not_false_eq_true, if_true]
    rw [atoi_eq_decimalValue v hval]
    rfl
  case capture_alpha =>
    have G := fun nm => GetArgument_option OptionName.capture_alpha.text v r nm (by decide) hvt hv0 hr
    generalize OptionName.capture_alpha.text ++ ' ' :: (v ++ r) = pos at G ⊢
    have G1 : GetArgument pos "mode".toList = ([], pos) :=
      (G _).trans (if_neg (by decide))
    have G2 : GetArgument pos "capture_path".toList = ([], pos) :=
      (G _).trans (if_neg (by decide))
    have G3 : GetArgument pos "capture_name".toList = ([], pos) :=
      (G _).trans (if_neg (by decide))
    have G4 : GetArgument pos "capture_fps".toList = ([], pos) :=
      (G _).trans (if_neg (by decide))
    have G5 : GetArgument pos "capture_frames".toList = ([], pos) :=
      (G _).trans (if_neg (by decide))
    have G6 : GetArgument pos "capture_format".toList = ([], pos) :=
      (G _).trans (if_neg (by decide))
    have G7 : GetArgument pos "capture_quality".toList = ([], pos) :=
      (G _).trans (if_neg (by decide))
    have G8 : GetArgument pos "capture_alpha".toList = (v, r) :=
      (G _).trans (if_pos (by decide))
    unfold ProcessCommandLine_option
    simp only [G1, G2, G3, G4, G5, G6, G7, G8, ne_eq, not_true_eq_false, if_false, hv0,
      not_false_eq_true, if_true]
    rw [capture_alpha_valid v hnul hval]
    rfl
  case width =>
    have G := fun nm => GetArgument_option OptionName.width.text v r nm (by decide) hvt hv0 hr
    generalize OptionName.width.text ++ ' ' :: (v ++ r) = pos at G ⊢
    have G1 : GetArgument pos "mode".toList = ([], pos) :=
      (G _).trans (if_neg (by decide))
    have G2 : GetArgument pos "capture_path".toList = ([], pos) :=
      (G _).trans (if_neg (by decide))
    have G3 : GetArgument pos "capture_name".toList = ([], pos) :=
      (G _).trans (if_neg (by decide))
    have G4 : GetArgument pos "capture_fps".toList = ([], pos) :=
      (G _).trans (if_neg (by decide))
    have G5 : GetArgument pos "capture_frames".toList = ([], pos) :=
      (G _).trans (if_neg (by decide))
    have G6 : GetArgument pos "capture_format".toList = ([], pos) :=
      (G _).trans (if_neg (by decide))
    have G7 : GetArgument pos "capture_quality".toList = ([], pos) :=
      (G _).trans (if_neg (by decide))
    have G8 : GetArgument pos "capture_alpha".toList = ([], pos) :=
      (G _).trans (if_neg (by decide))
    have G9 : GetArgument pos "width".toList = (v, r) :=
      (G _).trans (if_pos (by decide))
    unfold ProcessCommandLine_option
    simp only [G1, G2, G3, G4, G5, G6, G7, G8, G9, ne_eq, not_true_eq_false, if_false, hv0,
      not_false_eq_true, if_true]
    rw [atoi_eq_decimalValue v hval]
    rfl
  case height =>
    have G := fun nm => GetArgument_option OptionName.height.text v r nm (by decide) hvt hv0 hr
    generalize OptionName.height.text ++ ' ' :: (v ++ r) = pos at G ⊢
    have G1 : GetArgument pos "mode".toList = ([], pos) :=
      (G _).trans (if_neg (by decide))
    have G2 : GetArgument pos "capture_path".toList = ([], pos) :=
      (G _).trans (if_neg (by decide))
    have G3 : GetArgument pos "capture_name".toList = ([], pos) :=
      (G _).trans (if_neg (by decide))
    have G4 : GetArgument pos "capture_fps".toList = ([], pos) :=
      (G _).trans (if_neg (by decide))
    have G5 : GetArgument pos "capture_frames".toList = ([], pos) :=
      (G _).trans (if_neg (by decide))
    have G6 : GetArgument pos "capture_format".toList = ([], pos) :=
      (G _).trans (if_neg (by decide))
    have G7 : GetArgument pos "capture_quality".toList = ([], pos) :=
      (G _).trans (if_neg (by decide))
    have G8 : GetArgument pos "capture_alpha".toList = ([], pos) :=
      (G _).trans (if_neg (by decide))
    have G9 : GetArgument pos "width".toList = ([], pos) :=
      (G _).trans (if_neg (by decide))
    have G10 : GetArgument pos "height".toList = (v, r) :=
      (G _).trans (if_pos (by decide))
    unfold ProcessCommandLine_option
    simp only [G1, G2, G3, G4, G5, G6, G7, G8, G9, G10, ne_eq, not_true_eq_false, if_false, hv0,
      not_false_eq_true, if_true]
    rw [atoi_eq_decimalValue v hval]
    rfl
  case validation =>
    have G := fun nm => GetArgument_option OptionName.validation.text v r nm (by decide) hvt hv0 hr
    generalize OptionName.validation.text ++ ' ' :: (v ++ r) = pos at G ⊢
    have G1 : GetArgument pos "mode".toList = ([], pos) :=
      (G _).trans (if_neg (by decide))
    have G2 : GetArgument pos "capture_path".toList = ([], pos) :=
      (G _).trans (if_neg (by decide))
    have G3 : GetArgument pos "capture_name".toList = ([], pos) :=
      (G _).trans (if_neg (by decide))
    have G4 : GetArgument pos "capture_fps".toList = ([], pos) :=
      (G _).trans (if_neg (by decide))
    have G5 : GetArgument pos "capture_frames".toList = ([], pos) :=
      (G _).trans (if_neg (by decide))
    have G6 : GetArgument pos "capture_format".toList = ([], pos) :=
      (G _).trans (if_neg (by decide))
    have G7 : GetArgument pos "capture_quality".toList = ([], pos) :=
      (G _).trans (if_neg (by decide))
    have G8 : GetArgument pos "capture_alpha".toList = ([], pos) :=
      (G _).trans (if_neg (by decide))
    have G9 : GetArgument pos "width".toList = ([], pos) :=
      (G _).trans (if_neg (by decide))
    have G10 : GetArgument pos "height".toList = ([], pos) :=
      (G _).trans (if_neg (by decide))
    have G11 : GetArgument pos "validation".toList = (v, r) :=
      (G _).trans (if_pos (by decide))
    unfold ProcessCommandLine_option
    simp only [G1, G2, G3, G4, G5, G6, G7, G8, G9, G10, G11, ne_eq, not_true_eq_false, if_false, hv0,
      not_false_eq_true, if_true]
    rw [ProcessCommandLine_validation_valid v app hnul hval]
    rfl

theorem ProcessCommandLine_loop_none {Double : Type} (cfg : BuildConfig)
    (atof : CStr → Double) (fuel : Nat) (app : SampleApp Double) :
    ProcessCommandLine_loop cfg atof fuel none app = some (.ok app) := by
  cases fuel <;> rfl

theorem commandLineOf_cons (o : CmdOption) (os : List CmdOption) :
    ∃ r, commandLineOf (o :: os) = '-' :: (o.name.text ++ ' ' :: (o.value ++ r)) ∧
      isTokenChar (deref r) = false ∧ strchr r '-' = strchr (commandLineOf os) '-' := by
  cases os with
  | nil => exact ⟨[], by simp [commandLineOf], rfl, rfl⟩
  | cons o1 os =>
    refine ⟨' ' :: commandLineOf (o1 :: os), rfl, rfl, ?_⟩
    rw [strchr, if_neg (by decide), if_neg (by decide)]

/-- The loop of `ProcessCommandLine` over a command line of well-formed options applies
the options one after the other. -/
theorem ProcessCommandLine_loop_options {Double : Type} (cfg : BuildConfig)
    (atof : CStr → Double) (opts : List CmdOption) :
    ∀ (fuel : Nat) (app : SampleApp Double), (∀ o ∈ opts, o.valid cfg) →
      opts.length ≤ fuel →
      ProcessCommandLine_loop cfg atof fuel (strchr (commandLineOf opts) '-') app =
        some (.ok (opts.foldl (applyOption atof) app)) := by
  induction opts with
  | nil =>
    intro fuel app _ _
    have : strchr (commandLineOf []) '-' = none := by decide
    rw [this, ProcessCommandLine_loop_none]
    rfl
  | cons o os ih =>
    intro fuel app hvalid hfuel
    obtain ⟨r, hcl, hr, hnext⟩ := commandLineOf_cons o os
    cases fuel with
    | zero => simp at hfuel
    | succ fuel =>
      have hs : strchr (commandLineOf (o :: os)) '-' =
          some ('-' :: (o.name.text ++ ' ' :: (o.value ++ r))) := by
        rw [hcl, strchr, if_pos rfl]
      rw [hs]
      unfold ProcessCommandLine_loop
      rw [List.tail_cons,
        ProcessCommandLine_option_sets cfg atof o r app (hvalid o (List.mem_cons_self _ _)) hr]
      simp only
      rw [hnext, List.foldl_cons]
      exact ih fuel _ (fun x hx => hvalid x (List.mem_cons_of_mem _ hx))
        (by simp only [List.length_cons] at hfuel; omega)

theorem length_le_commandLineOf (opts : List CmdOption) :
    opts.length ≤ (commandLineOf opts).length := by
  induction opts with
  | nil => exact Nat.le_refl _
  | cons o os ih =>
    cases os with
    | nil => simp [commandLineOf]
    | cons o1 os =>
      simp only [commandLineOf, List.length_cons, List.length_append] at ih ⊢
      omega

theorem applyOption_comm {Double : Type} (atof : CStr → Double) (z : SampleApp Double)
    (x y : CmdOption) (h : x.name ≠ y.name) :
    applyOption atof (applyOption atof z x) y = applyOption atof (applyOption atof z y) x := by
  obtain ⟨n1, v1⟩ := x
  obtain ⟨n2, v2⟩ := y
  cases n1 <;> cases n2 <;> first
    | exact absurd rfl h
    | rfl

theorem fieldOf_applyOption {Double : Type} (atof : CStr → Double) (app : SampleApp Double)
    (o : CmdOption) (n : OptionName) :
    fieldOf n (applyOption atof app o) =
      if o.name = n then valueOf atof o else fieldOf n app := by
  obtain ⟨m, v⟩ := o
  cases m <;> cases n <;> rfl

theorem applyOption_other {Double : Type} (atof : CStr → Double) (app : SampleApp Double)
    (o : CmdOption) :
    (applyOption atof app o).m_ScreenCaptureInfo.AllowCapture =
      (app.m_ScreenCaptureInfo.AllowCapture || o.allowsCapture) ∧
    (applyOption atof app o).m_AppTitle = app.m_AppTitle ∧
    (applyOption atof app o).Messages = app.Messages := by
  obtain ⟨m, v⟩ := o
  cases m <;> simp [applyOption, CmdOption.allowsCapture]

theorem fieldOf_foldl_of_not_mem {Double : Type} (atof : CStr → Double)
    (opts : List CmdOption) (n : OptionName) (h : n ∉ opts.map CmdOption.name) :
    ∀ app : SampleApp Double, fieldOf n (opts.foldl (applyOption atof) app) = fieldOf n app := by
  induction opts with
  | nil => intro app; rfl
  | cons x xs ih =>
    intro app
    simp only [List.map_cons, List.mem_cons, not_or] at h
    rw [List.foldl_cons, ih h.2, fieldOf_applyOption, if_neg (fun e => h.1 e.symm)]

theorem fieldOf_foldl_of_mem {Double : Type} (atof : CStr → Double)
    (opts : List CmdOption) (hnodup : (opts.map CmdOption.name).Nodup) (o : CmdOption)
    (ho : o ∈ opts) :
    ∀ app : SampleApp Double,
      fieldOf o.name (opts.foldl (applyOption atof) app) = valueOf atof o := by
  induction opts with
  | nil => exact absurd ho (List.not_mem_nil _)
  | cons x xs ih =>
    intro app
    simp only [List.map_cons, List.nodup_cons] at hnodup
    rw [List.foldl_cons]
    rcases List.mem_cons.1 ho with e | hmem
    · subst e
      rw [fieldOf_foldl_of_not_mem atof xs o.name hnodup.1, fieldOf_applyOption, if_pos rfl]
    · exact ih hnodup.2 hmem _

theorem foldl_applyOption_other {Double : Type} (atof : CStr → Double)
    (opts : List CmdOption) :
    ∀ app : SampleApp Double,
      (opts.foldl (applyOption atof) app).m_ScreenCaptureInfo.AllowCapture =
        (app.m_ScreenCaptureInfo.AllowCapture || opts.any CmdOption.allowsCapture) ∧
      (opts.foldl (applyOption atof) app).m_AppTitle = app.m_AppTitle ∧
      (opts.foldl (applyOption atof) app).Messages = app.Messages := by
  induction opts with
  | nil => intro app; simp
  | cons x xs ih =>
    intro app
    have h1 := ih (applyOption atof app x)
    have h2 := applyOption_other atof app x
    rw [List.foldl_cons, h1.1, h1.2.1, h1.2.2, h2.1, h2.2.1, h2.2.2, List.any_cons,
      Bool.or_assoc]
    exact ⟨rfl, rfl, rfl⟩

/-- The backend suffix that the title switch appends for a device type. -/
theorem ProcessCommandLine_title_supported {Double : Type} (cfg : BuildConfig)
    (app : SampleApp Double) (h : cfg.supports app.m_DeviceType = true) :
    ∃ suffix, suffix ∈ [" (D3D11)", " (D3D12)", " (OpenGL)", " (Vulkan)"] ∧
      ProcessCommandLine_title cfg app = { app with m_AppTitle := app.m_AppTitle ++ suffix } := by
  obtain ⟨d, sci, w, hgt, v, t, m⟩ := app
  cases d <;> simp only [BuildConfig.supports] at h
  · exact absurd h (by simp)
  · exact ⟨" (D3D11)", by simp, by simp [ProcessCommandLine_title, h]⟩
  · exact ⟨" (D3D12)", by simp, by simp [ProcessCommandLine_title, h]⟩
  · exact ⟨" (OpenGL)", by simp,
      by simp only [ProcessCommandLine_title, h, if_true]⟩
  · exact absurd h (by simp)
  · exact ⟨" (Vulkan)", by simp, by simp [ProcessCommandLine_title, h]⟩
  · exact absurd h (by simp)

/-- C11. The assertion at the end of `ProcessCommandLine` is reached: for the device type
OpenGLES preset by `SampleAppAndroid`, whatever backends are compiled in, a command line
without options ends in the `default` case of the title switch, which reports
`Unknown/unsupported device type` and appends nothing to the title. For the device type
OpenGL preset by `SampleAppLinux`, with OpenGL or OpenGL ES compiled in, the switch
appends ` (OpenGL)`. -/
theorem ProcessCommandLine_title_misses_OpenGLES {Double : Type} (cfg : BuildConfig)
    (atof : CStr → Double) (SelectDeviceType : SampleApp Double → SampleApp Double)
    (app : SampleApp Double) :
    ProcessCommandLine cfg atof SelectDeviceType [] (SampleAppAndroid.ctor app) =
      some (.ok { app with
        m_DeviceType := DeviceType.OpenGLES,
        Messages := app.Messages ++ ["Unknown/unsupported device type"] }) ∧
    ProcessCommandLine_title { cfg with GLES_SUPPORTED := true } (SampleAppAndroid.ctor app) =
      { app with
        m_DeviceType := DeviceType.OpenGLES,
        Messages := app.Messages ++ ["Unknown/unsupported device type"] } ∧
    ProcessCommandLine { cfg with GL_SUPPORTED := true } atof SelectDeviceType []
        (SampleAppLinux.ctor app) =
      some (.ok { app with
        m_DeviceType := DeviceType.OpenGL,
        m_AppTitle := app.m_AppTitle ++ " (OpenGL)" }) := by
  refine ⟨rfl, rfl, ?_⟩
  simp [ProcessCommandLine, ProcessCommandLine_loop, strchr, ProcessCommandLine_finish,
    ProcessCommandLine_title, SampleAppLinux.ctor]

/-! ## The event handlers of `SampleAppLinux` -/

/-- C12. `HandleXEvent` always calls ImGui first, and forwards the event to the input
controller exactly when ImGui did not handle it or its type is `ButtonRelease`,
`MotionNotify` or `KeyRelease`; it returns the result of the input controller when the
event was forwarded and that of ImGui otherwise. `HandleXCBEvent` forwards exactly when
ImGui did not handle the event or `response_type & 0x7f` is `XCB_MOTION_NOTIFY`,
`XCB_BUTTON_RELEASE` or `XCB_KEY_RELEASE`. -/
theorem HandleXEvent_forwards (g c : XEvent → Bool) (xev : XEvent)
    (g1 c1 : xcb_generic_event_t → Bool) (event : xcb_generic_event_t) :
    (HandlerCall.InputController ∈ (SampleAppLinux.HandleXEvent g c xev).2 ↔
      (g xev = false ∨ xev.type = ButtonRelease ∨ xev.type = MotionNotify ∨
        xev.type = KeyRelease)) ∧
    (SampleAppLinux.HandleXEvent g c xev).2.head? = some HandlerCall.ImGui ∧
    (SampleAppLinux.HandleXEvent g c xev).1 =
      (if HandlerCall.InputController ∈ (SampleAppLinux.HandleXEvent g c xev).2 then c xev
        else g xev) ∧
    (HandlerCall.InputController ∈ SampleAppLinux.HandleXCBEvent g1 c1 event ↔
      (g1 event = false ∨ event.response_type &&& 0x7f = XCB_MOTION_NOTIFY ∨
        event.response_type &&& 0x7f = XCB_BUTTON_RELEASE ∨
        event.response_type &&& 0x7f = XCB_KEY_RELEASE)) ∧
    (SampleAppLinux.HandleXCBEvent g1 c1 event).head? = some HandlerCall.ImGui := by
  unfold SampleAppLinux.HandleXEvent SampleAppLinux.HandleXCBEvent
  simp only []
  refine ⟨?_, ?_, ?_, ?_, ?_⟩
  · split <;> rename_i h <;> simp at h ⊢ <;> tauto
  · split <;> rfl
  · split <;> simp
  · split <;> rename_i h <;> simp at h ⊢ <;> tauto
  · split <;> rfl

/-! ## `SampleApp::InitializeDiligentEngine` -/

theorem Uint32_of_lt (k : Nat) (h : k < 2 ^ 32) : Uint32 (k : Int) = k := by
  unfold Uint32
  have h2 : ((k : Int) % 2 ^ 32) = (k : Int) := Int.emod_eq_of_lt (by omega) (by omega)
  rw [h2, Int.toNat_ofNat]

theorem InitializeDiligentEngine_attach_range {Ctx : Type} (nullptr : Ctx)
    (Messages : List String) (CreateInfo : EngineCreateInfo) (f : Nat → Ctx) (k : Nat) :
    InitializeDiligentEngine_attach nullptr Messages CreateInfo ((List.range (k + 1)).map f) =
      some { Messages := Messages, CreateInfo := CreateInfo, NumContexts := k + 1,
             m_pImmediateContext := f 0,
             m_pDeferredContexts := (List.range k).map (fun i => f (1 + i)) } := by
  have hlen : ((List.range (k + 1)).map f).length = k + 1 := by simp
  have hd : (List.range (((List.range (k + 1)).map f).length - 1)).map
      (fun ctx => ((List.range (k + 1)).map f).getD (1 + ctx) nullptr) =
      (List.range k).map (fun i => f (1 + i)) := by
    rw [hlen, Nat.add_sub_cancel]
    apply List.map_congr_left
    intro i hi
    have hi2 : i < k := List.mem_range.1 hi
    rw [List.getD_eq_getElem?_getD, List.getElem?_map, List.getElem?_range (by omega)]
    rfl
  unfold InitializeDiligentEngine_attach
  rw [List.range_succ_eq_map] at hd hlen ⊢
  simp only [List.map_cons] at hd hlen ⊢
  rw [hd, hlen]

/-- C13. For the device types OpenGL and OpenGLES (with the backend compiled in), whatever
number of deferred contexts the sample requests, `InitializeDiligentEngine` hands the
factory a create info with `NumDeferredContexts` reset to 0 and an array of exactly one
context, the immediate context is that context and `m_pDeferredContexts` is empty; the
message `Deferred contexts are not supported in OpenGL mode` is logged exactly when the
request was not 0. In every other mode in which the engine is created, for a request of
`n` contexts (`n + 1` fitting a `Uint32`), nothing is logged, the create info is the one
filled by the sample, the immediate context is the first context written by the factory
and `m_pDeferredContexts` holds the `n` others in order. -/
theorem InitializeDiligentEngine_contexts {Ctx : Type} (cfg : BuildConfig)
    (METAL_SUPPORTED : Bool)
    (GetEngineInitializationAttribs : DeviceType → EngineCreateInfo → EngineCreateInfo)
    (NumAdapters : Nat) (CreateContexts : EngineCreateInfo → Nat → Ctx) (nullptr : Ctx) :
    (∀ d, (d = DeviceType.OpenGL ∨ d = DeviceType.OpenGLES) →
      (cfg.GL_SUPPORTED || cfg.GLES_SUPPORTED) = true →
      InitializeDiligentEngine cfg METAL_SUPPORTED GetEngineInitializationAttribs NumAdapters
          CreateContexts nullptr d =
        some (.ok
          { Messages :=
              if (GetEngineInitializationAttribs d {}).NumDeferredContexts ≠ 0 then
                ["Deferred contexts are not supported in OpenGL mode"]
              else [],
            CreateInfo := { GetEngineInitializationAttribs d {} with NumDeferredContexts := 0 },
            NumContexts := 1,
            m_pImmediateContext :=
              CreateContexts
                { GetEngineInitializationAttribs d {} with NumDeferredContexts := 0 } 0,
            m_pDeferredContexts := [] })) ∧
    (∀ d, engineAvailable cfg METAL_SUPPORTED NumAdapters d = true →
      (GetEngineInitializationAttribs d {}).NumDeferredContexts + 1 < 2 ^ 32 →
      InitializeDiligentEngine cfg METAL_SUPPORTED GetEngineInitializationAttribs NumAdapters
          CreateContexts nullptr d =
        some (.ok
          { Messages := [],
            CreateInfo := GetEngineInitializationAttribs d {},
            NumContexts := (GetEngineInitializationAttribs d {}).NumDeferredContexts + 1,
            m_pImmediateContext := CreateContexts (GetEngineInitializationAttribs d {}) 0,
            m_pDeferredContexts :=
              (List.range (GetEngineInitializationAttribs d {}).NumDeferredContexts).map
                (fun i => CreateContexts (GetEngineInitializationAttribs d {}) (1 + i)) }) ∧
      ((List.range (GetEngineInitializationAttribs d {}).NumDeferredContexts).map
        (fun i => CreateContexts (GetEngineInitializationAttribs d {}) (1 + i))).length =
        (GetEngineInitializationAttribs d {}).NumDeferredContexts) ∧
    (∀ d, d ≠ DeviceType.OpenGL → d ≠ DeviceType.OpenGLES →
      engineAvailable cfg METAL_SUPPORTED NumAdapters d = false →
      ∃ e, InitializeDiligentEngine cfg METAL_SUPPORTED GetEngineInitializationAttribs
        NumAdapters CreateContexts nullptr d = some (.error e)) := by
  have key : ∀ (msgs : List String) (ci : EngineCreateInfo), ci.NumDeferredContexts + 1 < 2 ^ 32 →
      InitializeDiligentEngine_attach nullptr msgs ci
        ((List.range (Uint32 (1 + (ci.NumDeferredContexts : Int)))).map (CreateContexts ci)) =
      some { Messages := msgs, CreateInfo := ci, NumContexts := ci.NumDeferredContexts + 1,
             m_pImmediateContext := CreateContexts ci 0,
             m_pDeferredContexts :=
               (List.range ci.NumDeferredContexts).map (fun i => CreateContexts ci (1 + i)) } := by
    intro msgs ci h
    have e : (1 + (ci.NumDeferredContexts : Int)) = ((ci.NumDeferredContexts + 1 : Nat) : Int) := by
      push_cast; ring
    rw [e, Uint32_of_lt _ h]
    exact InitializeDiligentEngine_attach_range nullptr msgs ci (CreateContexts ci) _
  refine ⟨?_, ?_, ?_⟩
  · intro d hd hgl
    generalize hci : GetEngineInitializationAttribs d {} = ci
    obtain ⟨n⟩ := ci
    have k0 := fun msgs => key msgs ⟨0⟩ (by decide)
    simp only [List.range_zero, List.map_nil, Nat.zero_add] at k0
    show InitializeDiligentEngine cfg METAL_SUPPORTED GetEngineInitializationAttribs
        NumAdapters CreateContexts nullptr d =
      some (.ok
        { Messages :=
            if n ≠ 0 then ["Deferred contexts are not supported in OpenGL mode"] else [],
          CreateInfo := ⟨0⟩, NumContexts := 1, m_pImmediateContext := CreateContexts ⟨0⟩ 0,
          m_pDeferredContexts := [] })
    rcases hd with rfl | rfl
    · unfold InitializeDiligentEngine
      simp only [hgl, if_true, hci]
      by_cases hn : n = 0
      · subst hn
        simp only [ne_eq, not_true_eq_false, if_false]
        rw [k0]
      · simp only [hn, ne_eq, not_false_eq_true, if_true]
        rw [k0]
    · unfold InitializeDiligentEngine
      simp only [hgl, if_true, hci]
      by_cases hn : n = 0
      · subst hn
        simp only [ne_eq, not_true_eq_false, if_false]
        rw [k0]
      · simp only [hn, ne_eq, not_false_eq_true, if_true]
        rw [k0]
  · intro d hav hn
    refine ⟨?_, by simp⟩
    have k1 := key [] (GetEngineInitializationAttribs d {}) hn
    cases d <;> simp only [engineAvailable, Bool.and_eq_true, decide_eq_true_eq] at hav
    · exact absurd hav (by simp)
    · unfold InitializeDiligentEngine
      simp only [hav.1, hav.2, if_true]
      rw [k1]
    · unfold InitializeDiligentEngine
      simp only [hav.1, hav.2, if_true]
      rw [k1]
    · exact absurd hav (by simp)
    · exact absurd hav (by simp)
    · unfold InitializeDiligentEngine
      simp only [hav, if_true]
      rw [k1]
    · unfold InitializeDiligentEngine
      simp only [hav, if_true]
      rw [k1]
  · intro d h1 h2 hav
    cases d <;> simp only [engineAvailable, Bool.and_eq_false_iff, decide_eq_false_iff_not] at hav
    · exact ⟨_, rfl⟩
    · unfold InitializeDiligentEngine
      by_cases hc : cfg.D3D11_SUPPORTED = true
      · have ha : ¬ NumAdapters > 0 := by
          rcases hav with h | h
          · exact absurd hc (by simp [h])
          · exact h
        simp only [hc, ha, if_true, if_false]
        exact ⟨_, rfl⟩
      · simp only [hc, if_false]
        exact ⟨_, rfl⟩
    · unfold InitializeDiligentEngine
      by_cases hc : cfg.D3D12_SUPPORTED = true
      · have ha : ¬ NumAdapters > 0 := by
          rcases hav with h | h
          · exact absurd hc (by simp [h])
          · exact h
        simp only [hc, ha, if_true, if_false]
        exact ⟨_, rfl⟩
      · simp only [hc, if_false]
        exact ⟨_, rfl⟩
    · exact absurd rfl h1
    · exact absurd rfl h2
    · unfold InitializeDiligentEngine
      simp only [hav]
      exact ⟨_, rfl⟩
    · unfold InitializeDiligentEngine
      simp only [hav]
      exact ⟨_, rfl⟩

/-! ## `Tutorial14_ComputeShader::Render` -/

end DiligentSamples
